import Mathlib

/-!
Verification of `pallets/pool-xyk/src/action_pair_swap.rs` (SORA / Polkaswap
pair-swap action).

The file shallowly embeds the two operations of the source file,
`prepare_and_validate` (SwapRulesValidation impl, lines 56-331) and
`reserve` (SwapAction impl, lines 348-415), as pure Lean functions over an
explicit environment `Env` of external collaborators (technical accounts,
asset balances, the pricing engine, the fee-direction policy).  Those
collaborators live in other crates/modules of the repository that are not
under `src/`; each definition standing in for one of them carries a doc
comment starting with `Modelled from the spec:`.

Machine integers: `Balance` in the source is `u128`; every arithmetic
operation performed on it here (comparisons, `+`, truncated `-`) stays far
from `2^128` in all statements, so `Nat` is used directly.  The fixed-point
`FixedWrapper` arithmetic of the final pool-invariant check is modelled with
exact integer cross-multiplication (see `pool_is_valid_after_op_test`).
-/

namespace PoolXyk

abbrev AssetId := Nat
abbrev AccountId := Nat
abbrev TechAccountId := Nat
abbrev Balance := Nat

/-- Modelled from the spec: `crate::bounds::Bounds` is not under `src/`.
Spec section 3: tagged variant `Unset` (`Dummy` in the source), `Desired(v)`,
`Min(v)`, `Max(v)`, `Calculated(v)`. -/
inductive Bounds where
  | Dummy : Bounds
  | Desired : Balance → Bounds
  | Min : Balance → Bounds
  | Max : Balance → Bounds
  | Calculated : Balance → Bounds
deriving DecidableEq, Repr

/-- Modelled from the spec: `Bounds::unwrap` (in `bounds.rs`, not under
`src/`) returns the concrete value held by `Desired` or `Calculated`; the
source panics on the other variants, totalised here with 0.  All call sites
in the embedded code apply it only to resolved bounds. -/
def Bounds.unwrap : Bounds → Balance
  | .Desired v => v
  | .Calculated v => v
  | _ => 0

/-- One side of the trade: `{ asset, amount }` (spec section 3, SwapLeg). -/
structure SwapLeg where
  asset : AssetId
  amount : Bounds
deriving DecidableEq, Repr

/-- The swap request mutated in place by validation
(`PairSwapAction<AssetId, Balance, AccountId, TechAccountId>`). -/
structure PairSwapAction where
  source : SwapLeg
  destination : SwapLeg
  pool_account : TechAccountId
  client_account : Option AccountId
  receiver_account : Option AccountId
  fee_account : Option TechAccountId
  get_fee_from_destination : Option Bool
  fee : Option Balance
deriving DecidableEq, Repr

/-- Error type of the pallet (`Error<T>` variants used by
`action_pair_swap.rs`), plus `NotEnoughBalanceForTransfer` for the modelled
transfer service and `Other` for failures of external collaborators. -/
inductive Error where
  | SourceAndClientAccountDoNotMatchAsEqual : Error
  | AccountBalanceIsInvalid : Error
  | PoolIsEmpty : Error
  | PoolIsInvalid : Error
  | ZeroValueInAmountParameter : Error
  | PoolPairRatioAndPairSwapRatioIsDifferent : Error
  | CalculatedValueIsOutOfDesiredBounds : Error
  | ImpossibleToDecideAssetPairAmounts : Error
  | PairSwapActionFeeIsSmallerThanRecommended : Error
  | SourceBalanceIsNotLargeEnough : Error
  | TargetBalanceIsNotLargeEnough : Error
  | PoolBecameInvalidAfterOperation : Error
  | NotEnoughBalanceForTransfer : Error
  | Other : Nat → Error
deriving DecidableEq, Repr

/-- Modelled from the spec: the external collaborators called by
`action_pair_swap.rs` that live outside `src/` (spec section 6):
`technical::Module::tech_account_id_to_account_id`,
`Module::is_pool_account_valid_for`, `assets::Module::free_balance`,
`Module::decide_is_fee_from_destination`,
`Module::calc_output_for_exact_input`, `Module::calc_input_for_exact_output`,
`Module::is_fee_account_valid_for`, `Module::get_fee_account`.  Each is an
opaque-to-this-core fallible function, represented as a field. -/
structure Env where
  tech_account_id_to_account_id : TechAccountId → Except Error AccountId
  is_pool_account_valid_for : AssetId → TechAccountId → Except Error Unit
  free_balance : AssetId → AccountId → Except Error Balance
  decide_is_fee_from_destination : AssetId → AssetId → Except Error Bool
  calc_output_for_exact_input :
    AssetId → AssetId → TechAccountId → Bool → Balance → Balance → Balance →
      Except Error (Balance × Balance)
  calc_input_for_exact_output :
    AssetId → AssetId → TechAccountId → Bool → Balance → Balance → Balance →
      Except Error (Balance × Balance)
  is_fee_account_valid_for : AssetId → TechAccountId → TechAccountId → Except Error Unit
  get_fee_account : TechAccountId → Except Error TechAccountId

/-- Source lines 52-54: a request is abstract when either leg carries
`Bounds::Dummy`. -/
def is_abstract_checking (self : PairSwapAction) : Bool :=
  self.source.amount == Bounds.Dummy || self.destination.amount == Bounds.Dummy

/-- Source lines 69-92: in non-abstract mode, default `client_account` to the
authenticated caller (failing when an explicit client account differs from
it) and default `receiver_account` to `client_account`. -/
def resolve_client_receiver (self : PairSwapAction) (source_opt : Option AccountId)
    (abstract_checking : Bool) : Except Error PairSwapAction :=
  if abstract_checking then Except.ok self
  else
    match source_opt with
    | none => Except.ok self -- unreachable: abstract_checking holds when source_opt is none
    | some source =>
      match self.client_account with
      | none =>
        let s1 : PairSwapAction := { self with client_account := some source }
        match s1.receiver_account with
        | none => Except.ok { s1 with receiver_account := s1.client_account }
        | some _ => Except.ok s1
      | some ca =>
        if ca ≠ source then Except.error Error.SourceAndClientAccountDoNotMatchAsEqual
        else
          match self.receiver_account with
          | none => Except.ok { self with receiver_account := self.client_account }
          | some _ => Except.ok self

/-- Source lines 100-107: the payer balance of the source asset is read only
in non-abstract mode. -/
def read_balance_ss (env : Env) (self : PairSwapAction) (source_opt : Option AccountId)
    (abstract_checking : Bool) : Except Error (Option Balance) :=
  if abstract_checking then Except.ok none
  else
    match source_opt with
    | none => Except.ok none -- unreachable
    | some s =>
      match env.free_balance self.source.asset s with
      | Except.error e => Except.error e
      | Except.ok b => Except.ok (some b)

/-- Source lines 114-116: `ensure!(balance_ss.unwrap() > 0,
AccountBalanceIsInvalid)` in non-abstract mode (`Balance` is unsigned). -/
def check_account_balance (abstract_checking : Bool) (balance_ss : Option Balance) :
    Except Error Unit :=
  if abstract_checking then Except.ok ()
  else if balance_ss.getD 0 > 0 then Except.ok ()
  else Except.error Error.AccountBalanceIsInvalid

/-- Source lines 117-121: empty pool versus half-drained pool.  `Balance` is
unsigned, so the source comparison `<= 0` is equality with 0. -/
def classify_pool (balance_st balance_tt : Balance) : Except Error Unit :=
  if balance_st = 0 ∧ balance_tt = 0 then Except.error Error.PoolIsEmpty
  else if balance_st = 0 ∨ balance_tt = 0 then Except.error Error.PoolIsInvalid
  else Except.ok ()

/-- Source lines 123-132: cache the fee-direction policy decision when it is
not already set. -/
def resolve_fee_direction (env : Env) (self : PairSwapAction) : Except Error PairSwapAction :=
  match self.get_fee_from_destination with
  | none =>
    match env.decide_is_fee_from_destination self.source.asset self.destination.asset with
    | Except.error e => Except.error e
    | Except.ok is_fee_from_d =>
      Except.ok { self with get_fee_from_destination := some is_fee_from_d }
  | some _ => Except.ok self

/-- Source lines 138-224: resolve the `(source.amount, destination.amount)`
pair, returning the possibly-updated action together with the recommended fee
(`recom_fee`).  The match arms are in source order; `.getD false` stands for
the source `self.get_fee_from_destination.unwrap()`, which is `Some` at every
call site. -/
def resolve_amounts (env : Env) (self : PairSwapAction) (balance_st balance_tt : Balance) :
    Except Error (PairSwapAction × Option Balance) :=
  match self.source.amount, self.destination.amount with
  | Bounds.Desired sa, Bounds.Desired ta =>
    if sa > 0 then
      if ta > 0 then
        match env.calc_output_for_exact_input self.source.asset self.destination.asset
            self.pool_account (self.get_fee_from_destination.getD false)
            balance_st balance_tt sa with
        | Except.error e => Except.error e
        | Except.ok y_out_pair =>
          match env.calc_input_for_exact_output self.source.asset self.destination.asset
              self.pool_account (self.get_fee_from_destination.getD false)
              balance_st balance_tt ta with
          | Except.error e => Except.error e
          | Except.ok x_in_pair =>
            if y_out_pair.1 ≠ ta ∨ x_in_pair.1 ≠ sa ∨ y_out_pair.2 ≠ x_in_pair.2 then
              Except.error Error.PoolPairRatioAndPairSwapRatioIsDifferent
            else Except.ok (self, some y_out_pair.2)
      else Except.error Error.ZeroValueInAmountParameter
    else Except.error Error.ZeroValueInAmountParameter
  | Bounds.Desired sa, ta_bnd =>
    if sa > 0 then
      match ta_bnd with
      | Bounds.Min ta_min =>
        match env.calc_output_for_exact_input self.source.asset self.destination.asset
            self.pool_account (self.get_fee_from_destination.getD false)
            balance_st balance_tt sa with
        | Except.error e => Except.error e
        | Except.ok cf =>
          if cf.1 ≥ ta_min then
            Except.ok
              ({ self with destination := { self.destination with amount := Bounds.Calculated cf.1 } },
                some cf.2)
          else Except.error Error.CalculatedValueIsOutOfDesiredBounds
      | _ => Except.error Error.ImpossibleToDecideAssetPairAmounts
    else Except.error Error.ZeroValueInAmountParameter
  | sa_bnd, Bounds.Desired ta =>
    if ta > 0 then
      match sa_bnd with
      | Bounds.Max sa_max =>
        match env.calc_input_for_exact_output self.source.asset self.destination.asset
            self.pool_account (self.get_fee_from_destination.getD false)
            balance_st balance_tt ta with
        | Except.error e => Except.error e
        | Except.ok cf =>
          if cf.1 ≤ sa_max then
            Except.ok
              ({ self with source := { self.source with amount := Bounds.Calculated cf.1 } },
                some cf.2)
          else Except.error Error.CalculatedValueIsOutOfDesiredBounds
      | _ => Except.error Error.ImpossibleToDecideAssetPairAmounts
    else Except.error Error.ZeroValueInAmountParameter
  | _, _ => Except.error Error.ImpossibleToDecideAssetPairAmounts

/-- Source lines 228-237: validate the supplied fee account or resolve the
canonical one. -/
def resolve_fee_account (env : Env) (self : PairSwapAction) : Except Error PairSwapAction :=
  match self.fee_account with
  | some fa =>
    match env.is_fee_account_valid_for self.source.asset self.pool_account fa with
    | Except.error e => Except.error e
    | Except.ok _ => Except.ok self
  | none =>
    match env.get_fee_account self.pool_account with
    | Except.error e => Except.error e
    | Except.ok fa => Except.ok { self with fee_account := some fa }

/-- Source lines 244-255: adopt the recommended fee when unset, otherwise
reject a supplied fee smaller than it.  `recom_fee.getD 0` stands for the
source `recom_fee.unwrap()`, `Some` at every call site. -/
def set_or_check_fee (self : PairSwapAction) (recom_fee : Option Balance) :
    Except Error PairSwapAction :=
  match self.fee with
  | none => Except.ok { self with fee := recom_fee }
  | some fee =>
    if fee < recom_fee.getD 0 then Except.error Error.PairSwapActionFeeIsSmallerThanRecommended
    else Except.ok self

/-- Source lines 259-299: the balance-sufficiency checks.  Both fee
directions enforce the same two comparisons (the stricter fee-adjusted checks
are commented out in the source); the `if` on the fee direction is kept to
mirror the source structure. -/
def check_balances (self : PairSwapAction) (balance_ss : Option Balance)
    (balance_tt : Balance) : Except Error Unit :=
  let source_amount := self.source.amount.unwrap
  let destination_amount := self.destination.amount.unwrap
  if self.get_fee_from_destination.getD false then
    if balance_ss.getD 0 < source_amount then Except.error Error.SourceBalanceIsNotLargeEnough
    else if balance_tt < destination_amount then Except.error Error.TargetBalanceIsNotLargeEnough
    else Except.ok ()
  else
    if balance_ss.getD 0 < source_amount then Except.error Error.SourceBalanceIsNotLargeEnough
    else if balance_tt < destination_amount then Except.error Error.TargetBalanceIsNotLargeEnough
    else Except.ok ()

/-- Modelled from the spec: the `FixedWrapper` fixed-point computation of
source lines 308-325 (`common::prelude::FixedWrapper`, `to_fixed_wrapper!`,
`to_balance!` and `balance!` are not under `src/`), rendered in exact integer
arithmetic.  The source computes `((balance_st + source_amount) /
(balance_tt - destination_amount) - balance_st / balance_tt)^2` in
fixed-point and requires it to be strictly below `balance!(100)` (the value
100); cross-multiplying removes the divisions.  A zero denominator (the
pool's destination reserve fully drained) fails the test. -/
def pool_is_valid_after_op_test
    (balance_st balance_tt source_amount destination_amount : Balance) : Bool :=
  let y : Int := (balance_tt : Int) - (destination_amount : Int)
  let num : Int :=
    ((balance_st : Int) + (source_amount : Int)) * (balance_tt : Int) - (balance_st : Int) * y
  let den : Int := y * (balance_tt : Int)
  num * num < 100 * (den * den)

/-- Source lines 308-329: the post-trade pool invariant check. -/
def check_pool_invariant (self : PairSwapAction) (balance_st balance_tt : Balance) :
    Except Error PairSwapAction :=
  if pool_is_valid_after_op_test balance_st balance_tt
      self.source.amount.unwrap self.destination.amount.unwrap then
    Except.ok self
  else Except.error Error.PoolBecameInvalidAfterOperation

/-- Source lines 134-331: the tail of `prepare_and_validate` after the
account and pool reads: amount resolution (guarded), fee-account resolution
(unguarded), fee resolution and balance checks (guarded), early `Ok` return
in abstract mode, final pool-invariant check. -/
def prepare_core (env : Env) (self2 : PairSwapAction) (balance_ss : Option Balance)
    (balance_st balance_tt : Balance)
    (abstract_checking abstract_checking_for_quote : Bool) :
    Except Error PairSwapAction := do
  let r ←
    if abstract_checking_for_quote || !abstract_checking then
      resolve_amounts env self2 balance_st balance_tt
    else Except.ok (self2, none)
  let self3 := r.1
  let recom_fee := r.2
  let self4 ← resolve_fee_account env self3
  let self5 ←
    if abstract_checking_for_quote || !abstract_checking then do
      let s ← set_or_check_fee self4 recom_fee
      let _ ←
        if !abstract_checking then check_balances s balance_ss balance_tt
        else Except.ok ()
      Except.ok s
    else Except.ok self4
  if abstract_checking then Except.ok self5
  else check_pool_invariant self5 balance_st balance_tt

/-- Source lines 56-331: `prepare_and_validate`.  The in-place mutation of
`self` is modelled by returning the updated action on success. -/
def prepare_and_validate (env : Env) (self : PairSwapAction)
    (source_opt : Option AccountId) : Except Error PairSwapAction := do
  let abstract_checking_from_method := is_abstract_checking self
  let abstract_checking := source_opt.isNone || abstract_checking_from_method
  let abstract_checking_for_quote := source_opt.isNone && !abstract_checking_from_method
  let self1 ← resolve_client_receiver self source_opt abstract_checking
  let pool_account_repr_sys ← env.tech_account_id_to_account_id self1.pool_account
  let _ ← env.is_pool_account_valid_for self1.source.asset self1.pool_account
  let balance_ss ← read_balance_ss env self1 source_opt abstract_checking
  let balance_st ← env.free_balance self1.source.asset pool_account_repr_sys
  let balance_tt ← env.free_balance self1.destination.asset pool_account_repr_sys
  let _ ← check_account_balance abstract_checking balance_ss
  let _ ← classify_pool balance_st balance_tt
  let self2 ← resolve_fee_direction env self1
  prepare_core env self2 balance_ss balance_st balance_tt
    abstract_checking abstract_checking_for_quote

/-! The Transfer Executor (source lines 348-415). -/

/-- Modelled from the spec: the persistent state the executor touches — the
Balance Reader / Transfer Service balance map and the Reserve Publisher
reserve map (spec section 6).  `reserves` is keyed by the ordered asset pair
as in `Module::update_reserves`. -/
structure ChainState where
  balances : AssetId → AccountId → Balance
  reserves : AssetId → AssetId → Balance × Balance

/-- Modelled from the spec: the Transfer Service `transfer(asset, from, to,
amount)`, which fails on insufficient balance (spec section 6).  The two
point updates are sequential, so a transfer to the paying account itself is
a net no-op. -/
def transfer (st : ChainState) (asset : AssetId) (src_acc dst_acc : AccountId)
    (amount : Balance) : Except Error ChainState :=
  if st.balances asset src_acc < amount then Except.error Error.NotEnoughBalanceForTransfer
  else
    let b1 : AssetId → AccountId → Balance := fun a acc =>
      if a = asset ∧ acc = src_acc then st.balances a acc - amount else st.balances a acc
    let b2 : AssetId → AccountId → Balance := fun a acc =>
      if a = asset ∧ acc = dst_acc then b1 a acc + amount else b1 a acc
    Except.ok { st with balances := b2 }

/-- Modelled from the spec: `technical::Module::transfer_in` (not under
`src/`) — transfer from a regular account into the representative account of
a technical account. -/
def transfer_in (env : Env) (st : ChainState) (asset : AssetId) (acc : AccountId)
    (tech : TechAccountId) (amount : Balance) : Except Error ChainState :=
  match env.tech_account_id_to_account_id tech with
  | Except.error e => Except.error e
  | Except.ok repr_acc => transfer st asset acc repr_acc amount

/-- Modelled from the spec: `technical::Module::transfer_out` (not under
`src/`) — transfer out of the representative account of a technical account
into a regular account. -/
def transfer_out (env : Env) (st : ChainState) (asset : AssetId) (tech : TechAccountId)
    (acc : AccountId) (amount : Balance) : Except Error ChainState :=
  match env.tech_account_id_to_account_id tech with
  | Except.error e => Except.error e
  | Except.ok repr_acc => transfer st asset repr_acc acc amount

/-- Modelled from the spec: `Module::update_reserves` (not under `src/`) —
the Reserve Publisher, the only write path for pool reserves. -/
def update_reserves (st : ChainState) (asset_a asset_b : AssetId)
    (pair : Balance × Balance) : ChainState :=
  { st with reserves := fun a b => if a = asset_a ∧ b = asset_b then pair else st.reserves a b }

/-- Source lines 348-415: `reserve`.  Called only after successful concrete
validation, when every `Option` of the action is `Some` and both bounds are
resolved; the source unwraps are rendered with `.getD`/`Bounds.unwrap`.  The
source checks `payer = client_account` twice (an early return and an
`ensure!` of the same condition); one check is semantically identical.  The
whole body runs inside `common::with_transaction`, which the `Except` model
captures: an error discards all intermediate states. -/
def reserve (env : Env) (st : ChainState) (self : PairSwapAction) (source : AccountId) :
    Except Error ChainState := do
  let _ ←
    if some source ≠ self.client_account then
      Except.error Error.SourceAndClientAccountDoNotMatchAsEqual
    else Except.ok ()
  let fee_account_repr_sys ← env.tech_account_id_to_account_id (self.fee_account.getD 0)
  let st3 ←
    if self.get_fee_from_destination.getD false then do
      let st1 ← transfer_in env st self.source.asset source self.pool_account
        self.source.amount.unwrap
      let st2 ← transfer_out env st1 self.destination.asset self.pool_account
        fee_account_repr_sys (self.fee.getD 0)
      transfer_out env st2 self.destination.asset self.pool_account
        (self.receiver_account.getD 0) (self.destination.amount.unwrap - self.fee.getD 0)
    else do
      let st1 ← transfer_in env st self.source.asset source self.pool_account
        (self.source.amount.unwrap - self.fee.getD 0)
      let st2 ← transfer_in env st1 self.source.asset source (self.fee_account.getD 0)
        (self.fee.getD 0)
      transfer_out env st2 self.destination.asset self.pool_account
        (self.receiver_account.getD 0) self.destination.amount.unwrap
  let pool_account_repr_sys ← env.tech_account_id_to_account_id self.pool_account
  let balance_a := st3.balances self.source.asset pool_account_repr_sys
  let balance_b := st3.balances self.destination.asset pool_account_repr_sys
  Except.ok (update_reserves st3 self.source.asset self.destination.asset (balance_a, balance_b))

/-! Generic helper lemmas about `Except`. -/

instance {e a : Type} [DecidableEq e] [DecidableEq a] : DecidableEq (Except e a) := fun x y =>
  match x, y with
  | Except.ok u, Except.ok v =>
    if h : u = v then isTrue (by rw [h]) else isFalse (by simp [h])
  | Except.error u, Except.error v =>
    if h : u = v then isTrue (by rw [h]) else isFalse (by simp [h])
  | Except.ok _, Except.error _ => isFalse (by simp)
  | Except.error _, Except.ok _ => isFalse (by simp)

theorem exc_bind_ok {e a b : Type} (x : a) (f : a → Except e b) :
    (Except.ok x >>= f) = f x := rfl

theorem exc_bind_error {e a b : Type} (er : e) (f : a → Except e b) :
    ((Except.error er : Except e a) >>= f) = Except.error er := rfl

theorem exc_bind_eq_ok {e a b : Type} {x : Except e a} {f : a → Except e b} {v : b} :
    (x >>= f) = Except.ok v ↔ ∃ u, x = Except.ok u ∧ f u = Except.ok v := by
  cases x with
  | ok u => simp [exc_bind_ok]
  | error er => simp [exc_bind_error]

/-! Field-tracking lemmas for the validation stages, used to invert a
successful `prepare_and_validate` run. -/

theorem resolve_client_receiver_ok {self t : PairSwapAction} {s : AccountId}
    (h : resolve_client_receiver self (some s) false = Except.ok t) :
    t.client_account = some s ∧ t.receiver_account.isSome = true ∧
    t.source = self.source ∧ t.destination = self.destination ∧
    t.pool_account = self.pool_account ∧ t.fee_account = self.fee_account ∧
    t.get_fee_from_destination = self.get_fee_from_destination ∧ t.fee = self.fee := by
  cases hca : self.client_account with
  | none =>
    cases hra : self.receiver_account with
    | none => simp [resolve_client_receiver, hca, hra] at h; simp [← h]
    | some r => simp [resolve_client_receiver, hca, hra] at h; simp [← h]
  | some ca =>
    by_cases hcs : ca = s
    · cases hra : self.receiver_account with
      | none =>
        simp [resolve_client_receiver, hca, hra, hcs] at h
        simp [← h, hca, hcs]
      | some r =>
        simp [resolve_client_receiver, hca, hra, hcs] at h
        simp [← h, hca, hcs, hra]
    · simp [resolve_client_receiver, hca, hcs] at h

theorem resolve_fee_direction_ok {env : Env} {self t : PairSwapAction}
    (h : resolve_fee_direction env self = Except.ok t) :
    t.source = self.source ∧ t.destination = self.destination ∧
    t.pool_account = self.pool_account ∧ t.client_account = self.client_account ∧
    t.receiver_account = self.receiver_account ∧ t.fee_account = self.fee_account ∧
    t.fee = self.fee := by
  cases hg : self.get_fee_from_destination with
  | none =>
    cases hd : env.decide_is_fee_from_destination self.source.asset self.destination.asset with
    | error er => simp [resolve_fee_direction, hg, hd] at h
    | ok g => simp [resolve_fee_direction, hg, hd] at h; simp [← h]
  | some g => simp [resolve_fee_direction, hg] at h; simp [← h]

theorem resolve_fee_account_ok {env : Env} {self t : PairSwapAction}
    (h : resolve_fee_account env self = Except.ok t) :
    t.fee_account.isSome = true ∧
    t.source = self.source ∧ t.destination = self.destination ∧
    t.pool_account = self.pool_account ∧ t.client_account = self.client_account ∧
    t.receiver_account = self.receiver_account ∧ t.fee = self.fee := by
  cases hfa : self.fee_account with
  | none =>
    cases hg : env.get_fee_account self.pool_account with
    | error er => simp [resolve_fee_account, hfa, hg] at h
    | ok fa => simp [resolve_fee_account, hfa, hg] at h; simp [← h]
  | some fa =>
    cases hv : env.is_fee_account_valid_for self.source.asset self.pool_account fa with
    | error er => simp [resolve_fee_account, hfa, hv] at h
    | ok u => simp [resolve_fee_account, hfa, hv] at h; simp [← h, hfa]

theorem set_or_check_fee_some_ok {self t : PairSwapAction} {rf : Balance}
    (h : set_or_check_fee self (some rf) = Except.ok t) :
    (∃ f, t.fee = some f ∧ rf ≤ f) ∧
    t.source = self.source ∧ t.destination = self.destination ∧
    t.pool_account = self.pool_account ∧ t.client_account = self.client_account ∧
    t.receiver_account = self.receiver_account ∧ t.fee_account = self.fee_account := by
  cases hf : self.fee with
  | none => simp [set_or_check_fee, hf] at h; simp [← h]
  | some f =>
    by_cases hlt : f < rf
    · simp [set_or_check_fee, hf, hlt] at h
    · simp [set_or_check_fee, hf, hlt] at h
      simp [← h, hf, Nat.le_of_not_lt hlt]

theorem set_or_check_fee_fee_account {self t : PairSwapAction} {r : Option Balance}
    (h : set_or_check_fee self r = Except.ok t) : t.fee_account = self.fee_account := by
  cases hf : self.fee with
  | none => simp [set_or_check_fee, hf] at h; simp [← h]
  | some f =>
    by_cases hlt : f < r.getD 0
    · simp [set_or_check_fee, hf, hlt] at h
    · simp [set_or_check_fee, hf, hlt] at h; simp [← h]

theorem check_pool_invariant_ok {self t : PairSwapAction} {bst btt : Balance}
    (h : check_pool_invariant self bst btt = Except.ok t) : t = self := by
  by_cases hv : pool_is_valid_after_op_test bst btt self.source.amount.unwrap
      self.destination.amount.unwrap = true
  · simp [check_pool_invariant, hv] at h; exact h.symm
  · simp [check_pool_invariant, hv] at h

/-! Reduction lemmas: once the account-resolution, pool and balance reads
are pinned to concrete outcomes, `prepare_and_validate` reduces to
`prepare_core` with the mode flags fully evaluated. -/

theorem prepare_concrete_pinned
    (env : Env) (act : PairSwapAction) (s pa : AccountId) (bss bst btt : Balance)
    (habs : is_abstract_checking act = false)
    (hcl : act.client_account = none) (hrc : act.receiver_account = none)
    (hgf : act.get_fee_from_destination.isSome = true)
    (h1 : env.tech_account_id_to_account_id act.pool_account = Except.ok pa)
    (h2 : env.is_pool_account_valid_for act.source.asset act.pool_account = Except.ok ())
    (h3 : env.free_balance act.source.asset s = Except.ok bss)
    (h4 : env.free_balance act.source.asset pa = Except.ok bst)
    (h5 : env.free_balance act.destination.asset pa = Except.ok btt)
    (hbss : 0 < bss) (hbst : bst ≠ 0) (hbtt : btt ≠ 0) :
    prepare_and_validate env act (some s) =
      prepare_core env { act with client_account := some s, receiver_account := some s }
        (some bss) bst btt false false := by
  obtain ⟨gd, hg⟩ := Option.isSome_iff_exists.mp hgf
  simp [prepare_and_validate, resolve_client_receiver, read_balance_ss,
    check_account_balance, classify_pool, resolve_fee_direction,
    habs, hcl, hrc, hg, h1, h2, h3, h4, h5, hbss, hbst, hbtt,
    exc_bind_ok, exc_bind_error]

theorem prepare_quote_pinned
    (env : Env) (act : PairSwapAction) (pa : AccountId) (bst btt : Balance)
    (habs : is_abstract_checking act = false)
    (hgf : act.get_fee_from_destination.isSome = true)
    (h1 : env.tech_account_id_to_account_id act.pool_account = Except.ok pa)
    (h2 : env.is_pool_account_valid_for act.source.asset act.pool_account = Except.ok ())
    (h4 : env.free_balance act.source.asset pa = Except.ok bst)
    (h5 : env.free_balance act.destination.asset pa = Except.ok btt)
    (hbst : bst ≠ 0) (hbtt : btt ≠ 0) :
    prepare_and_validate env act none =
      prepare_core env act none bst btt true true := by
  obtain ⟨gd, hg⟩ := Option.isSome_iff_exists.mp hgf
  simp [prepare_and_validate, resolve_client_receiver, read_balance_ss,
    check_account_balance, classify_pool, resolve_fee_direction,
    habs, hg, h1, h2, h4, h5, hbst, hbtt,
    exc_bind_ok, exc_bind_error]

/-! Concrete environments and requests used by witnesses and
counterexamples. -/

/-- A benign environment: every collaborator succeeds, technical account `t`
is represented by account `100 + t`, all balances are 1000000, the pricing
engine returns strictly positive amounts. -/
def envA : Env where
  tech_account_id_to_account_id := fun t => Except.ok (100 + t)
  is_pool_account_valid_for := fun _ _ => Except.ok ()
  free_balance := fun _ _ => Except.ok 1000000
  decide_is_fee_from_destination := fun _ _ => Except.ok true
  calc_output_for_exact_input := fun _ _ _ _ _ _ x => Except.ok (x / 2 + 1, 3)
  calc_input_for_exact_output := fun _ _ _ _ _ _ y => Except.ok (y * 2 + 1, 4)
  is_fee_account_valid_for := fun _ _ _ => Except.ok ()
  get_fee_account := fun p => Except.ok (p + 50)

/-- Like `envA` but every balance is 0: a `(0, 0)` pool. -/
def envZero : Env :=
  { envA with free_balance := fun _ _ => Except.ok 0 }

/-- Like `envA` but the pool representative account (`107` for pool 7) holds
0 of every asset while ordinary accounts hold 5. -/
def envPoolDrained : Env :=
  { envA with free_balance := fun _ acc => Except.ok (if acc = 107 then 0 else 5) }

/-- A request with both legs `Dummy` (spec: both legs `Unset`). -/
def actBothDummy : PairSwapAction where
  source := { asset := 1, amount := Bounds.Dummy }
  destination := { asset := 2, amount := Bounds.Dummy }
  pool_account := 7
  client_account := none
  receiver_account := none
  fee_account := none
  get_fee_from_destination := none
  fee := none

/-- A concrete request whose `client_account` disagrees with the caller used
in the counterexample for C8. -/
def actClientMismatch : PairSwapAction where
  source := { asset := 1, amount := Bounds.Desired 5 }
  destination := { asset := 2, amount := Bounds.Min 1 }
  pool_account := 7
  client_account := some 2
  receiver_account := none
  fee_account := none
  get_fee_from_destination := none
  fee := none

/-- A plain concrete request: source `Desired 5`, destination `Min 1`, fee
direction cached as fee-from-destination, the other optional fields empty. -/
def actPlain : PairSwapAction where
  source := { asset := 1, amount := Bounds.Desired 5 }
  destination := { asset := 2, amount := Bounds.Min 1 }
  pool_account := 7
  client_account := none
  receiver_account := none
  fee_account := none
  get_fee_from_destination := some true
  fee := none

/-! Claim C8. -/

/-- C8 counterexample.  The claim says that with pool reserves `(0, 0)`
`prepare_and_validate` fails with `PoolIsEmpty` for any request, whatever the
caller.  In `envZero` every balance — in particular both pool reserves — is
0, yet a request whose `client_account` (2) differs from the caller (1)
fails with `SourceAndClientAccountDoNotMatchAsEqual` instead: the
client-account check of source lines 69-81 runs before the reserves are
read. -/
theorem c8_mismatch_counterexample :
    envZero.free_balance 1 107 = Except.ok 0 ∧
    envZero.free_balance 2 107 = Except.ok 0 ∧
    prepare_and_validate envZero actClientMismatch (some 1) =
      Except.error Error.SourceAndClientAccountDoNotMatchAsEqual ∧
    prepare_and_validate envZero actClientMismatch (some 1) ≠
      Except.error Error.PoolIsEmpty := by
  decide

/-- C8 amended: provided the steps preceding the reserve classification
succeed (pool account resolves, pool is valid for the source asset, balance
reads succeed, and — in concrete mode — the client account is unset and the
payer balance is positive), `prepare_and_validate` fails with `PoolIsEmpty`
when both reserves are zero and with `PoolIsInvalid` when exactly one is
zero, whatever the caller and bound fields. -/
theorem c8_pool_classification
    (env : Env) (act : PairSwapAction) (source_opt : Option AccountId)
    (s pa : AccountId) (bss bst btt : Balance)
    (hmode : source_opt = none ∨ source_opt = some s)
    (hcl : act.client_account = none) (hrc : act.receiver_account = none)
    (h1 : env.tech_account_id_to_account_id act.pool_account = Except.ok pa)
    (h2 : env.is_pool_account_valid_for act.source.asset act.pool_account = Except.ok ())
    (h3 : env.free_balance act.source.asset s = Except.ok bss)
    (hbss : 0 < bss)
    (h4 : env.free_balance act.source.asset pa = Except.ok bst)
    (h5 : env.free_balance act.destination.asset pa = Except.ok btt) :
    (bst = 0 ∧ btt = 0 →
      prepare_and_validate env act source_opt = Except.error Error.PoolIsEmpty) ∧
    ((bst = 0 ∧ btt ≠ 0) ∨ (bst ≠ 0 ∧ btt = 0) →
      prepare_and_validate env act source_opt = Except.error Error.PoolIsInvalid) := by
  rcases hmode with rfl | rfl
  · constructor
    · rintro ⟨rfl, rfl⟩
      simp [prepare_and_validate, resolve_client_receiver, read_balance_ss,
        check_account_balance, classify_pool, h1, h2, h4, h5,
        exc_bind_ok, exc_bind_error]
    · rintro (⟨rfl, htt⟩ | ⟨hst, rfl⟩)
      · simp [prepare_and_validate, resolve_client_receiver, read_balance_ss,
          check_account_balance, classify_pool, h1, h2, h4, h5, htt,
          exc_bind_ok, exc_bind_error]
      · simp [prepare_and_validate, resolve_client_receiver, read_balance_ss,
          check_account_balance, classify_pool, h1, h2, h4, h5, hst,
          exc_bind_ok, exc_bind_error]
  · cases habs : is_abstract_checking act
    · constructor
      · rintro ⟨rfl, rfl⟩
        simp [prepare_and_validate, resolve_client_receiver, read_balance_ss,
          check_account_balance, classify_pool, habs, hcl, hrc, h1, h2, h3, h4, h5, hbss,
          exc_bind_ok, exc_bind_error]
      · rintro (⟨rfl, htt⟩ | ⟨hst, rfl⟩)
        · simp [prepare_and_validate, resolve_client_receiver, read_balance_ss,
            check_account_balance, classify_pool, habs, hcl, hrc, h1, h2, h3, h4, h5, hbss,
            htt, exc_bind_ok, exc_bind_error]
        · simp [prepare_and_validate, resolve_client_receiver, read_balance_ss,
            check_account_balance, classify_pool, habs, hcl, hrc, h1, h2, h3, h4, h5, hbss,
            hst, exc_bind_ok, exc_bind_error]
    · constructor
      · rintro ⟨rfl, rfl⟩
        simp [prepare_and_validate, resolve_client_receiver, read_balance_ss,
          check_account_balance, classify_pool, habs, hcl, hrc, h1, h2, h3, h4, h5, hbss,
          exc_bind_ok, exc_bind_error]
      · rintro (⟨rfl, htt⟩ | ⟨hst, rfl⟩)
        · simp [prepare_and_validate, resolve_client_receiver, read_balance_ss,
            check_account_balance, classify_pool, habs, hcl, hrc, h1, h2, h3, h4, h5, hbss,
            htt, exc_bind_ok, exc_bind_error]
        · simp [prepare_and_validate, resolve_client_receiver, read_balance_ss,
            check_account_balance, classify_pool, habs, hcl, hrc, h1, h2, h3, h4, h5, hbss,
            hst, exc_bind_ok, exc_bind_error]

/-- C8 witness: in `envPoolDrained` with pool account 7 (representative 107,
holding 0 of both assets) and payer 1 (balance 5), `prepare_and_validate`
rejects `actPlain` with `PoolIsEmpty`. -/
theorem c8_pool_classification_witness :
    prepare_and_validate envPoolDrained actPlain (some 1) =
      Except.error Error.PoolIsEmpty :=
  (c8_pool_classification envPoolDrained actPlain (some 1) 1 107 5 0 0
    (Or.inr rfl) rfl rfl rfl rfl rfl (by decide) rfl rfl).1 ⟨rfl, rfl⟩

/-! Claim C5. -/

/-- C5 counterexample.  The claim says a request with both legs unset always
fails with `UnderspecifiedTrade` (`ImpossibleToDecideAssetPairAmounts`).  In
fact both legs `Dummy` makes the request abstract (source line 53), the whole
amount-resolution block of lines 137-225 is skipped, and the call returns
`Ok` (line 302) — here with the fee-direction and fee-account fields filled
in and everything else untouched. -/
theorem c5_dummy_counterexample :
    prepare_and_validate envA actBothDummy (some 3) =
      Except.ok { actBothDummy with
        get_fee_from_destination := some true, fee_account := some 57 } ∧
    prepare_and_validate envA actBothDummy (some 3) ≠
      Except.error Error.ImpossibleToDecideAssetPairAmounts := by
  decide

/-- C5 amended: provided neither leg is `Dummy` (otherwise the request is
abstract and the resolution block never runs), the steps preceding amount
resolution succeed, and any `Desired` amount is nonzero (a zero one fails
first with `ZeroValueInAmountParameter`), a request in which neither leg is
`Desired`, or whose source is `Desired` with a destination neither `Min` nor
`Desired`, or whose destination is `Desired` with a source neither `Max` nor
`Desired`, fails with `ImpossibleToDecideAssetPairAmounts`, in concrete mode
and in pure-quote mode alike.  `prepare_and_validate` performs no state
mutation at all (it is a pure function of `Env`), so no reserves are touched
on this failure. -/
theorem c5_underspecified
    (env : Env) (act : PairSwapAction) (source_opt : Option AccountId)
    (s pa : AccountId) (bss bst btt : Balance) (gd : Bool)
    (hmode : source_opt = none ∨ source_opt = some s)
    (hcl : act.client_account = none) (hrc : act.receiver_account = none)
    (hgf : act.get_fee_from_destination = some gd)
    (h1 : env.tech_account_id_to_account_id act.pool_account = Except.ok pa)
    (h2 : env.is_pool_account_valid_for act.source.asset act.pool_account = Except.ok ())
    (h3 : env.free_balance act.source.asset s = Except.ok bss)
    (hbss : 0 < bss)
    (h4 : env.free_balance act.source.asset pa = Except.ok bst)
    (h5 : env.free_balance act.destination.asset pa = Except.ok btt)
    (hbst : bst ≠ 0) (hbtt : btt ≠ 0) :
    ((∀ v, act.source.amount ≠ Bounds.Desired v) → act.source.amount ≠ Bounds.Dummy →
      (∀ v, act.destination.amount ≠ Bounds.Desired v) → act.destination.amount ≠ Bounds.Dummy →
      prepare_and_validate env act source_opt =
        Except.error Error.ImpossibleToDecideAssetPairAmounts) ∧
    (∀ sa, act.source.amount = Bounds.Desired sa → 0 < sa →
      (∀ v, act.destination.amount ≠ Bounds.Min v) →
      (∀ v, act.destination.amount ≠ Bounds.Desired v) →
      act.destination.amount ≠ Bounds.Dummy →
      prepare_and_validate env act source_opt =
        Except.error Error.ImpossibleToDecideAssetPairAmounts) ∧
    (∀ ta, act.destination.amount = Bounds.Desired ta → 0 < ta →
      (∀ v, act.source.amount ≠ Bounds.Max v) →
      (∀ v, act.source.amount ≠ Bounds.Desired v) →
      act.source.amount ≠ Bounds.Dummy →
      prepare_and_validate env act source_opt =
        Except.error Error.ImpossibleToDecideAssetPairAmounts) := by
  refine ⟨?_, ?_, ?_⟩
  · intro hsD hsDu hdD hdDu
    have habs : is_abstract_checking act = false := by
      simp [is_abstract_checking, hsDu, hdDu]
    rcases hmode with rfl | rfl
    · rw [prepare_quote_pinned env act pa bst btt habs (by simp [hgf]) h1 h2 h4 h5 hbst hbtt]
      cases hs : act.source.amount <;> cases hd : act.destination.amount <;>
        first
          | exact absurd hs (hsD _)
          | exact absurd hs hsDu
          | exact absurd hd (hdD _)
          | exact absurd hd hdDu
          | simp [prepare_core, resolve_amounts, hs, hd, exc_bind_ok, exc_bind_error]
    · rw [prepare_concrete_pinned env act s pa bss bst btt habs hcl hrc (by simp [hgf])
        h1 h2 h3 h4 h5 hbss hbst hbtt]
      cases hs : act.source.amount <;> cases hd : act.destination.amount <;>
        first
          | exact absurd hs (hsD _)
          | exact absurd hs hsDu
          | exact absurd hd (hdD _)
          | exact absurd hd hdDu
          | simp [prepare_core, resolve_amounts, hs, hd, exc_bind_ok, exc_bind_error]
  · intro sa hs hsa hdM hdD hdDu
    have habs : is_abstract_checking act = false := by
      simp [is_abstract_checking, hs, hdDu]
    rcases hmode with rfl | rfl
    · rw [prepare_quote_pinned env act pa bst btt habs (by simp [hgf]) h1 h2 h4 h5 hbst hbtt]
      cases hd : act.destination.amount <;>
        first
          | exact absurd hd (hdM _)
          | exact absurd hd (hdD _)
          | exact absurd hd hdDu
          | simp [prepare_core, resolve_amounts, hs, hd, hsa, exc_bind_ok, exc_bind_error]
    · rw [prepare_concrete_pinned env act s pa bss bst btt habs hcl hrc (by simp [hgf])
        h1 h2 h3 h4 h5 hbss hbst hbtt]
      cases hd : act.destination.amount <;>
        first
          | exact absurd hd (hdM _)
          | exact absurd hd (hdD _)
          | exact absurd hd hdDu
          | simp [prepare_core, resolve_amounts, hs, hd, hsa, exc_bind_ok, exc_bind_error]
  · intro ta hd hta hsM hsD hsDu
    have habs : is_abstract_checking act = false := by
      simp [is_abstract_checking, hd, hsDu]
    rcases hmode with rfl | rfl
    · rw [prepare_quote_pinned env act pa bst btt habs (by simp [hgf]) h1 h2 h4 h5 hbst hbtt]
      cases hs : act.source.amount <;>
        first
          | exact absurd hs (hsM _)
          | exact absurd hs (hsD _)
          | exact absurd hs hsDu
          | simp [prepare_core, resolve_amounts, hs, hd, hta, exc_bind_ok, exc_bind_error]
    · rw [prepare_concrete_pinned env act s pa bss bst btt habs hcl hrc (by simp [hgf])
        h1 h2 h3 h4 h5 hbss hbst hbtt]
      cases hs : act.source.amount <;>
        first
          | exact absurd hs (hsM _)
          | exact absurd hs (hsD _)
          | exact absurd hs hsDu
          | simp [prepare_core, resolve_amounts, hs, hd, hta, exc_bind_ok, exc_bind_error]

/-- A request with source `Min 1` and destination `Max 5`: the unsupported
bound combination from the spec scenario. -/
def actMinMax : PairSwapAction where
  source := { asset := 1, amount := Bounds.Min 1 }
  destination := { asset := 2, amount := Bounds.Max 5 }
  pool_account := 7
  client_account := none
  receiver_account := none
  fee_account := none
  get_fee_from_destination := some true
  fee := none

/-- C5 witness: source `Min 1`, destination `Max 5` fails with
`ImpossibleToDecideAssetPairAmounts` under `envA`, caller 1. -/
theorem c5_underspecified_witness :
    prepare_and_validate envA actMinMax (some 1) =
      Except.error Error.ImpossibleToDecideAssetPairAmounts :=
  (c5_underspecified envA actMinMax (some 1) 1 107 1000000 1000000 1000000 true
    (Or.inr rfl) rfl rfl rfl rfl rfl rfl (by decide) rfl rfl
    (by decide) (by decide)).1
    (by intro v h; simp [actMinMax] at h) (by decide)
    (by intro v h; simp [actMinMax] at h) (by decide)

/-! Claim C3. -/

/-- C3: with both legs `Desired` and the preceding steps pinned to succeed,
a zero amount on either side fails with `ZeroValueInAmountParameter`;
otherwise the engine is consulted in both directions and validation fails
with `PoolPairRatioAndPairSwapRatioIsDifferent` unless the quoted output
equals `ta`, the quoted input equals `sa` and the two quoted fees coincide
exactly — in concrete mode and in pure-quote mode alike (source lines
140-165). -/
theorem c3_both_desired
    (env : Env) (act : PairSwapAction) (source_opt : Option AccountId)
    (s pa nfa : AccountId) (bss bst btt : Balance) (gd : Bool)
    (sa ta co cf ci xf : Balance)
    (hmode : source_opt = none ∨ source_opt = some s)
    (hcl : act.client_account = none) (hrc : act.receiver_account = none)
    (hgf : act.get_fee_from_destination = some gd)
    (hfa : act.fee_account = none) (hfe : act.fee = none)
    (hsrc : act.source.amount = Bounds.Desired sa)
    (hdst : act.destination.amount = Bounds.Desired ta)
    (h1 : env.tech_account_id_to_account_id act.pool_account = Except.ok pa)
    (h2 : env.is_pool_account_valid_for act.source.asset act.pool_account = Except.ok ())
    (h3 : env.free_balance act.source.asset s = Except.ok bss)
    (hbss : 0 < bss)
    (h4 : env.free_balance act.source.asset pa = Except.ok bst)
    (h5 : env.free_balance act.destination.asset pa = Except.ok btt)
    (hbst : bst ≠ 0) (hbtt : btt ≠ 0)
    (hco : env.calc_output_for_exact_input act.source.asset act.destination.asset
      act.pool_account gd bst btt sa = Except.ok (co, cf))
    (hci : env.calc_input_for_exact_output act.source.asset act.destination.asset
      act.pool_account gd bst btt ta = Except.ok (ci, xf))
    (hgfa : env.get_fee_account act.pool_account = Except.ok nfa) :
    (sa = 0 ∨ ta = 0 →
      prepare_and_validate env act source_opt =
        Except.error Error.ZeroValueInAmountParameter) ∧
    (0 < sa → 0 < ta → (co ≠ ta ∨ ci ≠ sa ∨ cf ≠ xf) →
      prepare_and_validate env act source_opt =
        Except.error Error.PoolPairRatioAndPairSwapRatioIsDifferent) ∧
    (0 < sa → 0 < ta → co = ta → ci = sa → cf = xf →
      prepare_and_validate env act source_opt ≠
        Except.error Error.PoolPairRatioAndPairSwapRatioIsDifferent) := by
  have habs : is_abstract_checking act = false := by
    simp [is_abstract_checking, hsrc, hdst]
  refine ⟨?_, ?_, ?_⟩
  · intro hz
    rcases hmode with rfl | rfl
    · rw [prepare_quote_pinned env act pa bst btt habs (by simp [hgf]) h1 h2 h4 h5 hbst hbtt]
      rcases hz with rfl | rfl
      · simp [prepare_core, resolve_amounts, hsrc, hdst, exc_bind_ok, exc_bind_error]
      · rcases Nat.eq_zero_or_pos sa with rfl | hsa
        · simp [prepare_core, resolve_amounts, hsrc, hdst, exc_bind_ok, exc_bind_error]
        · simp [prepare_core, resolve_amounts, hsrc, hdst, hsa, exc_bind_ok, exc_bind_error]
    · rw [prepare_concrete_pinned env act s pa bss bst btt habs hcl hrc (by simp [hgf])
        h1 h2 h3 h4 h5 hbss hbst hbtt]
      rcases hz with rfl | rfl
      · simp [prepare_core, resolve_amounts, hsrc, hdst, exc_bind_ok, exc_bind_error]
      · rcases Nat.eq_zero_or_pos sa with rfl | hsa
        · simp [prepare_core, resolve_amounts, hsrc, hdst, exc_bind_ok, exc_bind_error]
        · simp [prepare_core, resolve_amounts, hsrc, hdst, hsa, exc_bind_ok, exc_bind_error]
  · intro hsa hta hne
    rcases hmode with rfl | rfl
    · rw [prepare_quote_pinned env act pa bst btt habs (by simp [hgf]) h1 h2 h4 h5 hbst hbtt]
      simp [prepare_core, resolve_amounts, hsrc, hdst, hsa, hta, hgf, hco, hci, hne,
        exc_bind_ok, exc_bind_error]
    · rw [prepare_concrete_pinned env act s pa bss bst btt habs hcl hrc (by simp [hgf])
        h1 h2 h3 h4 h5 hbss hbst hbtt]
      simp [prepare_core, resolve_amounts, hsrc, hdst, hsa, hta, hgf, hco, hci, hne,
        exc_bind_ok, exc_bind_error]
  · rintro hsa hta rfl rfl rfl
    rcases hmode with rfl | rfl
    · rw [prepare_quote_pinned env act pa bst btt habs (by simp [hgf]) h1 h2 h4 h5 hbst hbtt]
      simp [prepare_core, resolve_amounts, hsrc, hdst, hsa, hta, hgf, hco, hci,
        resolve_fee_account, hfa, hgfa, set_or_check_fee, hfe,
        exc_bind_ok, exc_bind_error]
    · rw [prepare_concrete_pinned env act s pa bss bst btt habs hcl hrc (by simp [hgf])
        h1 h2 h3 h4 h5 hbss hbst hbtt]
      simp [prepare_core, resolve_amounts, hsrc, hdst, hsa, hta, hgf, hco, hci,
        resolve_fee_account, hfa, hgfa, set_or_check_fee, hfe, check_balances,
        check_pool_invariant, Bounds.unwrap,
        exc_bind_ok, exc_bind_error]
      split <;> try simp [check_pool_invariant, exc_bind_ok, exc_bind_error]
      all_goals try (split <;> try simp [check_pool_invariant, exc_bind_ok, exc_bind_error])
      all_goals try (split <;> try simp [exc_bind_ok, exc_bind_error])

/-- A request with both legs `Desired`: source 10, destination 4. -/
def actBothDesired : PairSwapAction where
  source := { asset := 1, amount := Bounds.Desired 10 }
  destination := { asset := 2, amount := Bounds.Desired 4 }
  pool_account := 7
  client_account := none
  receiver_account := none
  fee_account := none
  get_fee_from_destination := some true
  fee := none

/-- C3 witness: under `envA` the output quote for 10 is 6 ≠ 4, so the
cross-check rejects `actBothDesired` with
`PoolPairRatioAndPairSwapRatioIsDifferent`. -/
theorem c3_both_desired_witness :
    prepare_and_validate envA actBothDesired (some 1) =
      Except.error Error.PoolPairRatioAndPairSwapRatioIsDifferent :=
  (c3_both_desired envA actBothDesired (some 1) 1 107 57 1000000 1000000 1000000 true
    10 4 6 3 9 4
    (Or.inr rfl) rfl rfl rfl rfl rfl rfl rfl rfl rfl rfl (by decide) rfl rfl
    (by decide) (by decide) rfl rfl rfl).2.1 (by decide) (by decide)
    (by decide)

/-! Claim C4. -/

/-- C4: with exactly one `Desired` leg and the preceding steps pinned to
succeed — source `Desired sa` (`sa > 0`) with destination `Min tm`: the
computed output `co` is compared against `tm`, failing with
`CalculatedValueIsOutOfDesiredBounds` when `co < tm` and otherwise stored as
`Calculated co` in the destination leg; symmetrically for destination
`Desired ta` (`ta > 0`) with source `Max sm` (source lines 167-219). -/
theorem c4_one_desired
    (env : Env) (act : PairSwapAction) (source_opt : Option AccountId)
    (s pa nfa : AccountId) (bss bst btt : Balance) (gd : Bool)
    (hmode : source_opt = none ∨ source_opt = some s)
    (hcl : act.client_account = none) (hrc : act.receiver_account = none)
    (hgf : act.get_fee_from_destination = some gd)
    (hfa : act.fee_account = none) (hfe : act.fee = none)
    (h1 : env.tech_account_id_to_account_id act.pool_account = Except.ok pa)
    (h2 : env.is_pool_account_valid_for act.source.asset act.pool_account = Except.ok ())
    (h3 : env.free_balance act.source.asset s = Except.ok bss)
    (hbss : 0 < bss)
    (h4 : env.free_balance act.source.asset pa = Except.ok bst)
    (h5 : env.free_balance act.destination.asset pa = Except.ok btt)
    (hbst : bst ≠ 0) (hbtt : btt ≠ 0)
    (hgfa : env.get_fee_account act.pool_account = Except.ok nfa) :
    (∀ sa tm co cf, act.source.amount = Bounds.Desired sa → 0 < sa →
      act.destination.amount = Bounds.Min tm →
      env.calc_output_for_exact_input act.source.asset act.destination.asset
        act.pool_account gd bst btt sa = Except.ok (co, cf) →
      (co < tm →
        prepare_and_validate env act source_opt =
          Except.error Error.CalculatedValueIsOutOfDesiredBounds) ∧
      (tm ≤ co → sa ≤ bss → co ≤ btt →
        pool_is_valid_after_op_test bst btt sa co = true →
        ∃ act2, prepare_and_validate env act source_opt = Except.ok act2 ∧
          act2.destination.amount = Bounds.Calculated co ∧
          act2.source.amount = Bounds.Desired sa)) ∧
    (∀ ta sm ci xf, act.destination.amount = Bounds.Desired ta → 0 < ta →
      act.source.amount = Bounds.Max sm →
      env.calc_input_for_exact_output act.source.asset act.destination.asset
        act.pool_account gd bst btt ta = Except.ok (ci, xf) →
      (sm < ci →
        prepare_and_validate env act source_opt =
          Except.error Error.CalculatedValueIsOutOfDesiredBounds) ∧
      (ci ≤ sm → ci ≤ bss → ta ≤ btt →
        pool_is_valid_after_op_test bst btt ci ta = true →
        ∃ act2, prepare_and_validate env act source_opt = Except.ok act2 ∧
          act2.source.amount = Bounds.Calculated ci ∧
          act2.destination.amount = Bounds.Desired ta)) := by
  constructor
  · intro sa tm co cf hsrc hsa hdst hco
    have habs : is_abstract_checking act = false := by
      simp [is_abstract_checking, hsrc, hdst]
    constructor
    · intro hlt
      rcases hmode with rfl | rfl
      · rw [prepare_quote_pinned env act pa bst btt habs (by simp [hgf]) h1 h2 h4 h5 hbst hbtt]
        simp [prepare_core, resolve_amounts, hsrc, hdst, hsa, hgf, hco,
          Nat.not_le.mpr hlt, exc_bind_ok, exc_bind_error]
      · rw [prepare_concrete_pinned env act s pa bss bst btt habs hcl hrc (by simp [hgf])
          h1 h2 h3 h4 h5 hbss hbst hbtt]
        simp [prepare_core, resolve_amounts, hsrc, hdst, hsa, hgf, hco,
          Nat.not_le.mpr hlt, exc_bind_ok, exc_bind_error]
    · intro hge hsb htb hinv
      rcases hmode with rfl | rfl
      · refine ⟨{ act with
          destination := { act.destination with amount := Bounds.Calculated co },
          fee_account := some nfa, fee := some cf }, ?_, by simp, by simp [hsrc]⟩
        rw [prepare_quote_pinned env act pa bst btt habs (by simp [hgf]) h1 h2 h4 h5 hbst hbtt]
        simp [prepare_core, resolve_amounts, hsrc, hdst, hsa, hgf, hco, hge,
          resolve_fee_account, hfa, hgfa, set_or_check_fee, hfe,
          exc_bind_ok, exc_bind_error]
      · refine ⟨{ act with
          client_account := some s, receiver_account := some s,
          destination := { act.destination with amount := Bounds.Calculated co },
          fee_account := some nfa, fee := some cf }, ?_, by simp, by simp [hsrc]⟩
        rw [prepare_concrete_pinned env act s pa bss bst btt habs hcl hrc (by simp [hgf])
          h1 h2 h3 h4 h5 hbss hbst hbtt]
        simp [prepare_core, resolve_amounts, hsrc, hdst, hsa, hgf, hco, hge,
          resolve_fee_account, hfa, hgfa, set_or_check_fee, hfe, check_balances,
          check_pool_invariant, Bounds.unwrap, hinv,
          Nat.not_lt.mpr hsb, Nat.not_lt.mpr htb,
          exc_bind_ok, exc_bind_error]
  · intro ta sm ci xf hdst hta hsrc hci
    have habs : is_abstract_checking act = false := by
      simp [is_abstract_checking, hsrc, hdst]
    constructor
    · intro hlt
      rcases hmode with rfl | rfl
      · rw [prepare_quote_pinned env act pa bst btt habs (by simp [hgf]) h1 h2 h4 h5 hbst hbtt]
        simp [prepare_core, resolve_amounts, hsrc, hdst, hta, hgf, hci,
          Nat.not_le.mpr hlt, exc_bind_ok, exc_bind_error]
      · rw [prepare_concrete_pinned env act s pa bss bst btt habs hcl hrc (by simp [hgf])
          h1 h2 h3 h4 h5 hbss hbst hbtt]
        simp [prepare_core, resolve_amounts, hsrc, hdst, hta, hgf, hci,
          Nat.not_le.mpr hlt, exc_bind_ok, exc_bind_error]
    · intro hge hsb htb hinv
      rcases hmode with rfl | rfl
      · refine ⟨{ act with
          source := { act.source with amount := Bounds.Calculated ci },
          fee_account := some nfa, fee := some xf }, ?_, by simp, by simp [hdst]⟩
        rw [prepare_quote_pinned env act pa bst btt habs (by simp [hgf]) h1 h2 h4 h5 hbst hbtt]
        simp [prepare_core, resolve_amounts, hsrc, hdst, hta, hgf, hci, hge,
          resolve_fee_account, hfa, hgfa, set_or_check_fee, hfe,
          exc_bind_ok, exc_bind_error]
      · refine ⟨{ act with
          client_account := some s, receiver_account := some s,
          source := { act.source with amount := Bounds.Calculated ci },
          fee_account := some nfa, fee := some xf }, ?_, by simp, by simp [hdst]⟩
        rw [prepare_concrete_pinned env act s pa bss bst btt habs hcl hrc (by simp [hgf])
          h1 h2 h3 h4 h5 hbss hbst hbtt]
        simp [prepare_core, resolve_amounts, hsrc, hdst, hta, hgf, hci, hge,
          resolve_fee_account, hfa, hgfa, set_or_check_fee, hfe, check_balances,
          check_pool_invariant, Bounds.unwrap, hinv,
          Nat.not_lt.mpr hsb, Nat.not_lt.mpr htb,
          exc_bind_ok, exc_bind_error]

/-- C4 witness: under `envA`, `actPlain` (source `Desired 5`, destination
`Min 1`) resolves the destination to `Calculated 3` (the engine output for
input 5) and succeeds. -/
theorem c4_one_desired_witness :
    5 ≤ (1000000 : Balance) ∧
    ∃ act2, prepare_and_validate envA actPlain (some 1) = Except.ok act2 ∧
      act2.destination.amount = Bounds.Calculated 3 ∧
      act2.source.amount = Bounds.Desired 5 :=
  ⟨by decide,
    ((c4_one_desired envA actPlain (some 1) 1 107 57 1000000 1000000 1000000 true
      (Or.inr rfl) rfl rfl rfl rfl rfl rfl rfl rfl (by decide) rfl rfl
      (by decide) (by decide) rfl).1 5 1 3 3 rfl (by decide) rfl rfl).2
    (by decide) (by decide) (by decide) (by decide)⟩

/-! Claim C9. -/

/-- C9: when amounts are resolved (pinned here to the both-`Desired`
configuration with agreeing quotes and recommended fee `rf`), an unset
`fee` is assigned `rf`; a supplied fee strictly below `rf` fails with
`PairSwapActionFeeIsSmallerThanRecommended`; a supplied fee at least `rf`
is accepted unchanged — so validation never accepts a caller-supplied fee
below the engine-recommended one (source lines 244-257). -/
theorem c9_fee_floor
    (env : Env) (act : PairSwapAction) (source_opt : Option AccountId)
    (s pa nfa : AccountId) (bss bst btt : Balance) (gd : Bool)
    (sa ta rf : Balance)
    (hmode : source_opt = none ∨ source_opt = some s)
    (hcl : act.client_account = none) (hrc : act.receiver_account = none)
    (hgf : act.get_fee_from_destination = some gd)
    (hfa : act.fee_account = none)
    (hsrc : act.source.amount = Bounds.Desired sa)
    (hdst : act.destination.amount = Bounds.Desired ta)
    (hsa : 0 < sa) (hta : 0 < ta)
    (h1 : env.tech_account_id_to_account_id act.pool_account = Except.ok pa)
    (h2 : env.is_pool_account_valid_for act.source.asset act.pool_account = Except.ok ())
    (h3 : env.free_balance act.source.asset s = Except.ok bss)
    (hbss : 0 < bss)
    (h4 : env.free_balance act.source.asset pa = Except.ok bst)
    (h5 : env.free_balance act.destination.asset pa = Except.ok btt)
    (hbst : bst ≠ 0) (hbtt : btt ≠ 0)
    (hco : env.calc_output_for_exact_input act.source.asset act.destination.asset
      act.pool_account gd bst btt sa = Except.ok (ta, rf))
    (hci : env.calc_input_for_exact_output act.source.asset act.destination.asset
      act.pool_account gd bst btt ta = Except.ok (sa, rf))
    (hgfa : env.get_fee_account act.pool_account = Except.ok nfa)
    (hsb : sa ≤ bss) (htb : ta ≤ btt)
    (hinv : pool_is_valid_after_op_test bst btt sa ta = true) :
    (act.fee = none →
      ∃ act2, prepare_and_validate env act source_opt = Except.ok act2 ∧
        act2.fee = some rf) ∧
    (∀ f, act.fee = some f → f < rf →
      prepare_and_validate env act source_opt =
        Except.error Error.PairSwapActionFeeIsSmallerThanRecommended) ∧
    (∀ f, act.fee = some f → rf ≤ f →
      ∃ act2, prepare_and_validate env act source_opt = Except.ok act2 ∧
        act2.fee = some f) := by
  have habs : is_abstract_checking act = false := by
    simp [is_abstract_checking, hsrc, hdst]
  refine ⟨?_, ?_, ?_⟩
  · intro hfe
    rcases hmode with rfl | rfl
    · refine ⟨{ act with fee_account := some nfa, fee := some rf }, ?_, by simp⟩
      rw [prepare_quote_pinned env act pa bst btt habs (by simp [hgf]) h1 h2 h4 h5 hbst hbtt]
      simp [prepare_core, resolve_amounts, hsrc, hdst, hsa, hta, hgf, hco, hci,
        resolve_fee_account, hfa, hgfa, set_or_check_fee, hfe,
        exc_bind_ok, exc_bind_error]
    · refine ⟨{ act with
        client_account := some s, receiver_account := some s,
        fee_account := some nfa, fee := some rf }, ?_, by simp⟩
      rw [prepare_concrete_pinned env act s pa bss bst btt habs hcl hrc (by simp [hgf])
        h1 h2 h3 h4 h5 hbss hbst hbtt]
      simp [prepare_core, resolve_amounts, hsrc, hdst, hsa, hta, hgf, hco, hci,
        resolve_fee_account, hfa, hgfa, set_or_check_fee, hfe, check_balances,
        check_pool_invariant, Bounds.unwrap, hinv,
        Nat.not_lt.mpr hsb, Nat.not_lt.mpr htb,
        exc_bind_ok, exc_bind_error]
  · intro f hfe hlt
    rcases hmode with rfl | rfl
    · rw [prepare_quote_pinned env act pa bst btt habs (by simp [hgf]) h1 h2 h4 h5 hbst hbtt]
      simp [prepare_core, resolve_amounts, hsrc, hdst, hsa, hta, hgf, hco, hci,
        resolve_fee_account, hfa, hgfa, set_or_check_fee, hfe, hlt,
        exc_bind_ok, exc_bind_error]
    · rw [prepare_concrete_pinned env act s pa bss bst btt habs hcl hrc (by simp [hgf])
        h1 h2 h3 h4 h5 hbss hbst hbtt]
      simp [prepare_core, resolve_amounts, hsrc, hdst, hsa, hta, hgf, hco, hci,
        resolve_fee_account, hfa, hgfa, set_or_check_fee, hfe, hlt,
        exc_bind_ok, exc_bind_error]
  · intro f hfe hge
    rcases hmode with rfl | rfl
    · refine ⟨{ act with fee_account := some nfa }, ?_, by simp [hfe]⟩
      rw [prepare_quote_pinned env act pa bst btt habs (by simp [hgf]) h1 h2 h4 h5 hbst hbtt]
      simp [prepare_core, resolve_amounts, hsrc, hdst, hsa, hta, hgf, hco, hci,
        resolve_fee_account, hfa, hgfa, set_or_check_fee, hfe,
        Nat.not_lt.mpr hge, exc_bind_ok, exc_bind_error]
    · refine ⟨{ act with
        client_account := some s, receiver_account := some s,
        fee_account := some nfa }, ?_, by simp [hfe]⟩
      rw [prepare_concrete_pinned env act s pa bss bst btt habs hcl hrc (by simp [hgf])
        h1 h2 h3 h4 h5 hbss hbst hbtt]
      simp [prepare_core, resolve_amounts, hsrc, hdst, hsa, hta, hgf, hco, hci,
        resolve_fee_account, hfa, hgfa, set_or_check_fee, hfe, check_balances,
        check_pool_invariant, Bounds.unwrap, hinv,
        Nat.not_lt.mpr hsb, Nat.not_lt.mpr htb, Nat.not_lt.mpr hge,
        exc_bind_ok, exc_bind_error]

/-- An environment whose pricing engine quotes output 4 with fee 2 for input
10, and input 10 with fee 2 for output 4, consistently in both directions. -/
def envRatio : Env :=
  { envA with
    calc_output_for_exact_input := fun _ _ _ _ _ _ x => Except.ok (if x = 10 then 4 else x, 2)
    calc_input_for_exact_output := fun _ _ _ _ _ _ y => Except.ok (if y = 4 then 10 else y, 2) }

/-- A both-`Desired` request (10 in, 4 out) carrying an explicit fee 1. -/
def actLowFee : PairSwapAction where
  source := { asset := 1, amount := Bounds.Desired 10 }
  destination := { asset := 2, amount := Bounds.Desired 4 }
  pool_account := 7
  client_account := none
  receiver_account := none
  fee_account := none
  get_fee_from_destination := some true
  fee := some 1

/-- C9 witness: under `envRatio` the recommended fee for `actLowFee` is 2;
its supplied fee 1 is rejected with
`PairSwapActionFeeIsSmallerThanRecommended`. -/
theorem c9_fee_floor_witness :
    prepare_and_validate envRatio actLowFee (some 1) =
      Except.error Error.PairSwapActionFeeIsSmallerThanRecommended :=
  (c9_fee_floor envRatio actLowFee (some 1) 1 107 57 1000000 1000000 1000000 true
    10 4 2
    (Or.inr rfl) rfl rfl rfl rfl rfl rfl (by decide) (by decide)
    rfl rfl rfl (by decide) rfl rfl (by decide) (by decide)
    rfl rfl rfl (by decide) (by decide) (by decide)).2.1 1 rfl (by decide)

/-! Claim C6. -/

/-- C6: in concrete mode, with amounts resolved (pinned to source
`Desired sa`, destination resolved to `Calculated co`) and the fee steps
passing, validation fails with `SourceBalanceIsNotLargeEnough` exactly when
the payer balance is below the full resolved source amount — the fee is
neither subtracted nor added, for either fee direction (`gd` is arbitrary) —
and fails with `TargetBalanceIsNotLargeEnough` exactly when the source check
passes and the pool's destination reserve is below the resolved destination
amount (source lines 259-299). -/
theorem c6_balance_checks
    (env : Env) (act : PairSwapAction)
    (s pa nfa : AccountId) (bss bst btt : Balance) (gd : Bool)
    (sa tm co cf : Balance)
    (hcl : act.client_account = none) (hrc : act.receiver_account = none)
    (hgf : act.get_fee_from_destination = some gd)
    (hfa : act.fee_account = none) (hfe : act.fee = none)
    (hsrc : act.source.amount = Bounds.Desired sa)
    (hdst : act.destination.amount = Bounds.Min tm)
    (hsa : 0 < sa)
    (h1 : env.tech_account_id_to_account_id act.pool_account = Except.ok pa)
    (h2 : env.is_pool_account_valid_for act.source.asset act.pool_account = Except.ok ())
    (h3 : env.free_balance act.source.asset s = Except.ok bss)
    (hbss : 0 < bss)
    (h4 : env.free_balance act.source.asset pa = Except.ok bst)
    (h5 : env.free_balance act.destination.asset pa = Except.ok btt)
    (hbst : bst ≠ 0) (hbtt : btt ≠ 0)
    (hco : env.calc_output_for_exact_input act.source.asset act.destination.asset
      act.pool_account gd bst btt sa = Except.ok (co, cf))
    (htm : tm ≤ co)
    (hgfa : env.get_fee_account act.pool_account = Except.ok nfa) :
    (prepare_and_validate env act (some s) =
        Except.error Error.SourceBalanceIsNotLargeEnough ↔ bss < sa) ∧
    (prepare_and_validate env act (some s) =
        Except.error Error.TargetBalanceIsNotLargeEnough ↔ sa ≤ bss ∧ btt < co) := by
  have habs : is_abstract_checking act = false := by
    simp [is_abstract_checking, hsrc, hdst]
  rw [prepare_concrete_pinned env act s pa bss bst btt habs hcl hrc (by simp [hgf])
    h1 h2 h3 h4 h5 hbss hbst hbtt]
  by_cases hx : bss < sa
  · simp [prepare_core, resolve_amounts, hsrc, hdst, hsa, hgf, hco, htm,
      resolve_fee_account, hfa, hgfa, set_or_check_fee, hfe, check_balances,
      Bounds.unwrap, hx, Nat.not_le.mpr hx, exc_bind_ok, exc_bind_error]
  · by_cases hy : btt < co
    · simp [prepare_core, resolve_amounts, hsrc, hdst, hsa, hgf, hco, htm,
        resolve_fee_account, hfa, hgfa, set_or_check_fee, hfe, check_balances,
        Bounds.unwrap, hx, hy, Nat.not_lt.mp hx, exc_bind_ok, exc_bind_error]
    · simp [prepare_core, resolve_amounts, hsrc, hdst, hsa, hgf, hco, htm,
        resolve_fee_account, hfa, hgfa, set_or_check_fee, hfe, check_balances,
        check_pool_invariant, Bounds.unwrap, hx, hy, Nat.not_lt.mp hx,
        exc_bind_ok, exc_bind_error]
      constructor <;> (intro h; split at h <;> simp_all)

/-- An environment like `envA` in which the payer account 1 holds only 2 of
every asset while other accounts hold 1000000. -/
def envPoorPayer : Env :=
  { envA with free_balance := fun _ acc => Except.ok (if acc = 1 then 2 else 1000000) }

/-- C6 witness: under `envPoorPayer` the payer holds 2 < 5 of the source
asset, so `actPlain` fails with `SourceBalanceIsNotLargeEnough`. -/
theorem c6_balance_checks_witness :
    prepare_and_validate envPoorPayer actPlain (some 1) =
      Except.error Error.SourceBalanceIsNotLargeEnough :=
  ((c6_balance_checks envPoorPayer actPlain 1 107 57 2 1000000 1000000 true
    5 1 3 3
    rfl rfl rfl rfl rfl rfl rfl (by decide) rfl rfl rfl (by decide) rfl rfl
    (by decide) (by decide) rfl (by decide) rfl).1).mpr (by decide)

/-! Claim C7. -/

/-- C7: in concrete mode, once every preceding check passes, the final step
simulates the trade (`balance_st + sa` against `balance_tt - co`) and fails
with `PoolBecameInvalidAfterOperation` exactly when the squared deviation of
the reserve ratio is not strictly below the tolerance constant
(`pool_is_valid_after_op_test`, source lines 301-330); in pure-quote mode the
same request returns `Ok` without the check ever being consulted.  The
fixed-point arithmetic of the check is spec-modelled
(`pool_is_valid_after_op_test`). -/
theorem c7_pool_invariant
    (env : Env) (act : PairSwapAction)
    (s pa nfa : AccountId) (bss bst btt : Balance) (gd : Bool)
    (sa tm co cf : Balance)
    (hcl : act.client_account = none) (hrc : act.receiver_account = none)
    (hgf : act.get_fee_from_destination = some gd)
    (hfa : act.fee_account = none) (hfe : act.fee = none)
    (hsrc : act.source.amount = Bounds.Desired sa)
    (hdst : act.destination.amount = Bounds.Min tm)
    (hsa : 0 < sa)
    (h1 : env.tech_account_id_to_account_id act.pool_account = Except.ok pa)
    (h2 : env.is_pool_account_valid_for act.source.asset act.pool_account = Except.ok ())
    (h3 : env.free_balance act.source.asset s = Except.ok bss)
    (hbss : 0 < bss)
    (h4 : env.free_balance act.source.asset pa = Except.ok bst)
    (h5 : env.free_balance act.destination.asset pa = Except.ok btt)
    (hbst : bst ≠ 0) (hbtt : btt ≠ 0)
    (hco : env.calc_output_for_exact_input act.source.asset act.destination.asset
      act.pool_account gd bst btt sa = Except.ok (co, cf))
    (htm : tm ≤ co)
    (hgfa : env.get_fee_account act.pool_account = Except.ok nfa)
    (hsb : sa ≤ bss) (htb : co ≤ btt) :
    (prepare_and_validate env act (some s) =
        Except.error Error.PoolBecameInvalidAfterOperation ↔
      pool_is_valid_after_op_test bst btt sa co = false) ∧
    prepare_and_validate env act none =
      Except.ok { act with
        destination := { act.destination with amount := Bounds.Calculated co },
        fee_account := some nfa, fee := some cf } := by
  have habs : is_abstract_checking act = false := by
    simp [is_abstract_checking, hsrc, hdst]
  constructor
  · rw [prepare_concrete_pinned env act s pa bss bst btt habs hcl hrc (by simp [hgf])
      h1 h2 h3 h4 h5 hbss hbst hbtt]
    by_cases hinv : pool_is_valid_after_op_test bst btt sa co = true
    · simp [prepare_core, resolve_amounts, hsrc, hdst, hsa, hgf, hco, htm,
        resolve_fee_account, hfa, hgfa, set_or_check_fee, hfe, check_balances,
        check_pool_invariant, Bounds.unwrap, hinv,
        Nat.not_lt.mpr hsb, Nat.not_lt.mpr htb, exc_bind_ok, exc_bind_error]
    · have hinvf : pool_is_valid_after_op_test bst btt sa co = false := by
        simpa using hinv
      simp [prepare_core, resolve_amounts, hsrc, hdst, hsa, hgf, hco, htm,
        resolve_fee_account, hfa, hgfa, set_or_check_fee, hfe, check_balances,
        check_pool_invariant, Bounds.unwrap, hinvf,
        Nat.not_lt.mpr hsb, Nat.not_lt.mpr htb, exc_bind_ok, exc_bind_error]
  · rw [prepare_quote_pinned env act pa bst btt habs (by simp [hgf]) h1 h2 h4 h5 hbst hbtt]
    simp [prepare_core, resolve_amounts, hsrc, hdst, hsa, hgf, hco, htm,
      resolve_fee_account, hfa, hgfa, set_or_check_fee, hfe,
      exc_bind_ok, exc_bind_error]

/-- An environment whose pricing engine drains almost the whole destination
reserve for a tiny input (output 990000 for input 5), so the simulated trade
moves the price ratio far beyond the tolerance. -/
def envDrainQuote : Env :=
  { envA with calc_output_for_exact_input := fun _ _ _ _ _ _ _ => Except.ok (990000, 3) }

/-- C7 witness: under `envDrainQuote` the simulated post-trade ratio check
fails, so concrete validation of `actPlain` ends with
`PoolBecameInvalidAfterOperation`, while the pure quote of the very same
request succeeds. -/
theorem c7_pool_invariant_witness :
    prepare_and_validate envDrainQuote actPlain (some 1) =
      Except.error Error.PoolBecameInvalidAfterOperation ∧
    prepare_and_validate envDrainQuote actPlain none =
      Except.ok { actPlain with
        destination := { actPlain.destination with amount := Bounds.Calculated 990000 },
        fee_account := some 57, fee := some 3 } :=
  have h := c7_pool_invariant envDrainQuote actPlain 1 107 57 1000000 1000000 1000000 true
    5 1 990000 3
    rfl rfl rfl rfl rfl rfl rfl (by decide) rfl rfl rfl (by decide) rfl rfl
    (by decide) (by decide) rfl (by decide) rfl (by decide) (by decide)
  ⟨h.1.mpr (by decide), h.2⟩

/-- Inversion: whenever `prepare_core` returns `Ok`, the returned action has
its `fee_account` set, because `resolve_fee_account` runs unguarded and every
later stage preserves the field. -/
theorem prepare_core_ok_fee_account {env : Env} {self2 act2 : PairSwapAction}
    {bss : Option Balance} {bst btt : Balance} {a q : Bool}
    (h : prepare_core env self2 bss bst btt a q = Except.ok act2) :
    act2.fee_account.isSome = true := by
  rcases Bool.eq_false_or_eq_true a with ha | ha
  · rcases Bool.eq_false_or_eq_true q with hqt | hqt
    · simp [prepare_core, ha, hqt, exc_bind_ok, exc_bind_eq_ok] at h
      obtain ⟨a3, rfee, hra, s4, hs4, hset⟩ := h
      rw [set_or_check_fee_fee_account hset]
      exact (resolve_fee_account_ok hs4).1
    · simp [prepare_core, ha, hqt, exc_bind_ok, exc_bind_eq_ok] at h
      exact (resolve_fee_account_ok h).1
  · simp [prepare_core, ha, exc_bind_ok, exc_bind_eq_ok] at h
    obtain ⟨a3, rfee, hra, s4, hs4, s5, hset, hbal, hC⟩ := h
    rw [check_pool_invariant_ok hC, set_or_check_fee_fee_account hset]
    exact (resolve_fee_account_ok hs4).1

/-! Claim C10. -/

/-- C10: even a pure quote (no caller) resolves the pool account, validates
it for the source asset, classifies both reserves and resolves or validates
the fee account — so it can fail with the pool-validity error, `PoolIsEmpty`,
`PoolIsInvalid`, or the fee-account-validity error — and every call that
returns `Ok` leaves `fee_account` set (source lines 94-121 and 227-237). -/
theorem c10_quote_pool_and_fee_account
    (env : Env) (act : PairSwapAction) (pa : AccountId) (e e2 : Error)
    (gd : Bool) (fa : TechAccountId) (bst btt : Balance) :
    (∀ act2, prepare_and_validate env act none = Except.ok act2 →
      act2.fee_account.isSome = true) ∧
    (env.tech_account_id_to_account_id act.pool_account = Except.ok pa →
      env.is_pool_account_valid_for act.source.asset act.pool_account = Except.error e →
      prepare_and_validate env act none = Except.error e) ∧
    (env.tech_account_id_to_account_id act.pool_account = Except.ok pa →
      env.is_pool_account_valid_for act.source.asset act.pool_account = Except.ok () →
      env.free_balance act.source.asset pa = Except.ok bst →
      env.free_balance act.destination.asset pa = Except.ok btt →
      (bst = 0 ∧ btt = 0 →
        prepare_and_validate env act none = Except.error Error.PoolIsEmpty) ∧
      ((bst = 0 ∧ btt ≠ 0) ∨ (bst ≠ 0 ∧ btt = 0) →
        prepare_and_validate env act none = Except.error Error.PoolIsInvalid)) ∧
    (act.source.amount = Bounds.Dummy → act.get_fee_from_destination = some gd →
      act.fee_account = some fa →
      env.tech_account_id_to_account_id act.pool_account = Except.ok pa →
      env.is_pool_account_valid_for act.source.asset act.pool_account = Except.ok () →
      env.free_balance act.source.asset pa = Except.ok bst →
      env.free_balance act.destination.asset pa = Except.ok btt →
      bst ≠ 0 → btt ≠ 0 →
      env.is_fee_account_valid_for act.source.asset act.pool_account fa = Except.error e2 →
      prepare_and_validate env act none = Except.error e2) := by
  refine ⟨?_, ?_, ?_, ?_⟩
  · intro act2 h
    simp only [prepare_and_validate, exc_bind_eq_ok] at h
    obtain ⟨s1, hs1, pa1, hpa1, u1, hu1, o1, ho1, b1, hb1, b2, hb2, u2, hu2,
      u3, hu3, s2, hs2, hcore⟩ := h
    exact prepare_core_ok_fee_account hcore
  · intro hpa hv
    simp [prepare_and_validate, resolve_client_receiver, hpa, hv,
      exc_bind_ok, exc_bind_error]
  · intro hpa hv h4 h5
    constructor
    · rintro ⟨rfl, rfl⟩
      simp [prepare_and_validate, resolve_client_receiver, read_balance_ss,
        check_account_balance, classify_pool, hpa, hv, h4, h5,
        exc_bind_ok, exc_bind_error]
    · rintro (⟨rfl, htt⟩ | ⟨hst, rfl⟩)
      · simp [prepare_and_validate, resolve_client_receiver, read_balance_ss,
          check_account_balance, classify_pool, hpa, hv, h4, h5, htt,
          exc_bind_ok, exc_bind_error]
      · simp [prepare_and_validate, resolve_client_receiver, read_balance_ss,
          check_account_balance, classify_pool, hpa, hv, h4, h5, hst,
          exc_bind_ok, exc_bind_error]
  · intro hdum hgf hfa hpa hv h4 h5 hbst hbtt hfv
    have hm : is_abstract_checking act = true := by
      simp [is_abstract_checking, hdum]
    simp [prepare_and_validate, prepare_core, resolve_client_receiver,
      read_balance_ss, check_account_balance, classify_pool,
      resolve_fee_direction, resolve_fee_account, hm, hgf, hfa, hpa, hv, h4, h5,
      hbst, hbtt, hfv, exc_bind_ok, exc_bind_error]

/-- An environment rejecting every fee account. -/
def envBadFeeAccount : Env :=
  { envA with is_fee_account_valid_for := fun _ _ _ => Except.error (Error.Other 9) }

/-- A fully abstract request (both legs `Dummy`) that carries an explicit fee
account 3, used for the C10 witness. -/
def actQuoteFee : PairSwapAction where
  source := { asset := 1, amount := Bounds.Dummy }
  destination := { asset := 2, amount := Bounds.Dummy }
  pool_account := 7
  client_account := none
  receiver_account := none
  fee_account := some 3
  get_fee_from_destination := some true
  fee := none

/-- C10 witness: with no caller at all, the fee-account validation still runs
and its failure aborts the quote. -/
theorem c10_quote_pool_and_fee_account_witness :
    prepare_and_validate envBadFeeAccount actQuoteFee none =
      Except.error (Error.Other 9) :=
  (c10_quote_pool_and_fee_account envBadFeeAccount actQuoteFee 107 (Error.Other 9)
    (Error.Other 9) true 3 1000000 1000000).2.2.2
    rfl rfl rfl rfl rfl rfl rfl (by decide) (by decide) rfl

/-! Claim C1. -/

/-- A resolved amount: `Desired` or `Calculated` holding a strictly positive
value (in particular never `Dummy`). -/
def concretePositive (b : Bounds) : Prop :=
  (∃ v, b = Bounds.Desired v ∧ 0 < v) ∨ (∃ v, b = Bounds.Calculated v ∧ 0 < v)

/-- Inversion of a successful `resolve_amounts`: the recommended fee is set,
both legs end up `Desired`-positive or engine-`Calculated`, and all other
fields are untouched.  Positivity of `Calculated` values is inherited from
the positivity hypotheses on the pricing engine. -/
theorem resolve_amounts_ok {env : Env} {self t : PairSwapAction}
    {bst btt : Balance} {rec : Option Balance}
    (hpos_out : ∀ a b p g x y z v f,
      env.calc_output_for_exact_input a b p g x y z = Except.ok (v, f) → 0 < v)
    (hpos_in : ∀ a b p g x y z v f,
      env.calc_input_for_exact_output a b p g x y z = Except.ok (v, f) → 0 < v)
    (h : resolve_amounts env self bst btt = Except.ok (t, rec)) :
    (∃ rf, rec = some rf) ∧
    concretePositive t.source.amount ∧ concretePositive t.destination.amount ∧
    t.client_account = self.client_account ∧ t.receiver_account = self.receiver_account ∧
    t.fee_account = self.fee_account ∧ t.fee = self.fee := by
  cases hs : self.source.amount with
  | Dummy =>
    cases hd : self.destination.amount with
    | Desired ta =>
      simp [resolve_amounts, hs, hd] at h
      split at h <;> simp at h
    | Dummy => simp [resolve_amounts, hs, hd] at h
    | Min v => simp [resolve_amounts, hs, hd] at h
    | Max v => simp [resolve_amounts, hs, hd] at h
    | Calculated v => simp [resolve_amounts, hs, hd] at h
  | Min sm =>
    cases hd : self.destination.amount with
    | Desired ta =>
      simp [resolve_amounts, hs, hd] at h
      split at h <;> simp at h
    | Dummy => simp [resolve_amounts, hs, hd] at h
    | Min v => simp [resolve_amounts, hs, hd] at h
    | Max v => simp [resolve_amounts, hs, hd] at h
    | Calculated v => simp [resolve_amounts, hs, hd] at h
  | Calculated sc =>
    cases hd : self.destination.amount with
    | Desired ta =>
      simp [resolve_amounts, hs, hd] at h
      split at h <;> simp at h
    | Dummy => simp [resolve_amounts, hs, hd] at h
    | Min v => simp [resolve_amounts, hs, hd] at h
    | Max v => simp [resolve_amounts, hs, hd] at h
    | Calculated v => simp [resolve_amounts, hs, hd] at h
  | Max sm =>
    cases hd : self.destination.amount with
    | Dummy => simp [resolve_amounts, hs, hd] at h
    | Min v => simp [resolve_amounts, hs, hd] at h
    | Max v => simp [resolve_amounts, hs, hd] at h
    | Calculated v => simp [resolve_amounts, hs, hd] at h
    | Desired ta =>
      by_cases hta : ta > 0
      · rcases hci : env.calc_input_for_exact_output self.source.asset self.destination.asset
            self.pool_account (self.get_fee_from_destination.getD false) bst btt ta with e | p
        · simp [resolve_amounts, hs, hd, hta, hci] at h
        · obtain ⟨cv, cfee⟩ := p
          by_cases hcmp : cv ≤ sm
          · simp only [resolve_amounts, hs, hd] at h
            simp [hta, hci, hcmp] at h
            obtain ⟨ht, hrec⟩ := h
            subst ht
            subst hrec
            refine ⟨⟨cfee, rfl⟩, ?_, ?_, rfl, rfl, rfl, rfl⟩
            · exact Or.inr ⟨cv, rfl, hpos_in _ _ _ _ _ _ _ _ _ hci⟩
            · exact Or.inl ⟨ta, by simp [hd], hta⟩
          · simp [resolve_amounts, hs, hd, hta, hci, hcmp] at h
      · simp [resolve_amounts, hs, hd, hta] at h
  | Desired sa =>
    by_cases hsa : sa > 0
    · cases hd : self.destination.amount with
      | Dummy =>
        simp [resolve_amounts, hs, hd, hsa] at h
      | Max v =>
        simp [resolve_amounts, hs, hd, hsa] at h
      | Calculated v =>
        simp [resolve_amounts, hs, hd, hsa] at h
      | Min tm =>
        rcases hco : env.calc_output_for_exact_input self.source.asset self.destination.asset
            self.pool_account (self.get_fee_from_destination.getD false) bst btt sa with e | p
        · simp [resolve_amounts, hs, hd, hsa, hco] at h
        · obtain ⟨cv, cfee⟩ := p
          by_cases hcmp : cv ≥ tm
          · simp only [resolve_amounts, hs, hd] at h
            simp [hsa, hco, hcmp] at h
            obtain ⟨ht, hrec⟩ := h
            subst ht
            subst hrec
            refine ⟨⟨cfee, rfl⟩, ?_, ?_, rfl, rfl, rfl, rfl⟩
            · exact Or.inl ⟨sa, by simp [hs], hsa⟩
            · exact Or.inr ⟨cv, rfl, hpos_out _ _ _ _ _ _ _ _ _ hco⟩
          · simp [resolve_amounts, hs, hd, hsa, hco, hcmp] at h
      | Desired ta =>
        by_cases hta : ta > 0
        · rcases hco : env.calc_output_for_exact_input self.source.asset self.destination.asset
              self.pool_account (self.get_fee_from_destination.getD false) bst btt sa with e | yp
          · simp [resolve_amounts, hs, hd, hsa, hta, hco] at h
          · rcases hci : env.calc_input_for_exact_output self.source.asset self.destination.asset
                self.pool_account (self.get_fee_from_destination.getD false) bst btt ta with e | xp
            · simp [resolve_amounts, hs, hd, hsa, hta, hco, hci] at h
            · by_cases hne : yp.1 ≠ ta ∨ xp.1 ≠ sa ∨ yp.2 ≠ xp.2
              · simp [resolve_amounts, hs, hd, hsa, hta, hco, hci, hne] at h
              · simp only [resolve_amounts, hs, hd] at h
                simp [hsa, hta, hco, hci, hne] at h
                obtain ⟨ht, hrec⟩ := h
                subst ht
                subst hrec
                refine ⟨⟨yp.2, rfl⟩, ?_, ?_, rfl, rfl, rfl, rfl⟩
                · exact Or.inl ⟨sa, hs, hsa⟩
                · exact Or.inl ⟨ta, hd, hta⟩
        · simp [resolve_amounts, hs, hd, hsa, hta] at h
    · cases hd : self.destination.amount with
      | Dummy => simp [resolve_amounts, hs, hd, hsa] at h
      | Min v => simp [resolve_amounts, hs, hd, hsa] at h
      | Max v => simp [resolve_amounts, hs, hd, hsa] at h
      | Calculated v => simp [resolve_amounts, hs, hd, hsa] at h
      | Desired ta => simp [resolve_amounts, hs, hd, hsa] at h

/-- C1 counterexample.  The claim quantifies over every request and caller
for which `prepare_and_validate` returns `Ok`.  A request with both legs
`Dummy` and a caller is abstract: validation returns `Ok` while both legs
are still `Dummy`, `fee` is `none` and `client_account` is `none` — the
claimed invariants fail. -/
theorem c1_abstract_ok_counterexample :
    prepare_and_validate envA actBothDummy (some 1) =
      Except.ok { actBothDummy with
        get_fee_from_destination := some true, fee_account := some 57 } ∧
    ({ actBothDummy with
        get_fee_from_destination := some true,
        fee_account := some 57 } : PairSwapAction).source.amount = Bounds.Dummy ∧
    ({ actBothDummy with
        get_fee_from_destination := some true,
        fee_account := some 57 } : PairSwapAction).fee = none ∧
    ({ actBothDummy with
        get_fee_from_destination := some true,
        fee_account := some 57 } : PairSwapAction).client_account = none := by
  decide

/-- C1 amended: restricted to concrete mode — a caller is supplied and
neither leg is `Dummy` — and assuming (spec-modelled, the pricing engine is
not under `src/`) that the engine only returns strictly positive amounts,
every `Ok` outcome of `prepare_and_validate` leaves both legs holding a
concrete positive value (`Desired`, checked positive, or engine-
`Calculated`), `client_account` equal to the caller, `receiver_account` and
`fee_account` set, and `fee` set to a value at least the engine-recommended
fee of an actual pricing call made during this validation. -/
theorem c1_concrete_postconditions
    (env : Env) (act act2 : PairSwapAction) (s : AccountId)
    (hpos_out : ∀ a b p g x y z v f,
      env.calc_output_for_exact_input a b p g x y z = Except.ok (v, f) → 0 < v)
    (hpos_in : ∀ a b p g x y z v f,
      env.calc_input_for_exact_output a b p g x y z = Except.ok (v, f) → 0 < v)
    (habs : is_abstract_checking act = false)
    (hok : prepare_and_validate env act (some s) = Except.ok act2) :
    concretePositive act2.source.amount ∧ concretePositive act2.destination.amount ∧
    act2.client_account = some s ∧ act2.receiver_account.isSome = true ∧
    act2.fee_account.isSome = true ∧
    (∃ f rf a3 bst btt a4,
      resolve_amounts env a3 bst btt = Except.ok (a4, some rf) ∧
      act2.fee = some f ∧ rf ≤ f) := by
  simp only [prepare_and_validate, habs, Option.isNone_some, Bool.false_or,
    Bool.false_and, Bool.not_false, exc_bind_eq_ok] at hok
  obtain ⟨s1, hs1, pa1, hpa1, u1, hu1, o1, ho1, b1, hb1, b2, hb2, u2, hu2,
    u3, hu3, s2, hs2, hcore⟩ := hok
  simp only [prepare_core, Bool.or_false, Bool.not_false, if_true, ite_true,
    Bool.false_or, exc_bind_ok, exc_bind_eq_ok] at hcore
  obtain ⟨r, hra, s4, hs4, s5, hset, u4, hbal, hC⟩ := hcore
  obtain ⟨t3, rec3⟩ := r
  rw [if_neg Bool.false_ne_true] at hC
  obtain ⟨⟨rf, hrf⟩, hcps, hcpd, hcl3, hrc3, hfa3, hfee3⟩ :=
    resolve_amounts_ok hpos_out hpos_in hra
  obtain ⟨hfa4some, hsrc4, hdst4, hpool4, hcl4, hrc4, hfee4⟩ := resolve_fee_account_ok hs4
  rw [hrf] at hset
  obtain ⟨⟨f, hf5, hle⟩, hsrc5, hdst5, hpool5, hcl5, hrc5, hfa5⟩ :=
    set_or_check_fee_some_ok hset
  obtain ⟨hcl1, hrc1, hsrc1, hdst1, hpool1, hfa1, hgf1, hfee1⟩ :=
    resolve_client_receiver_ok hs1
  obtain ⟨hsrc2, hdst2, hpool2, hcl2, hrc2, hfa2, hfee2⟩ := resolve_fee_direction_ok hs2
  have hact2 : act2 = s5 := check_pool_invariant_ok hC
  subst hact2
  refine ⟨?_, ?_, ?_, ?_, ?_, f, rf, s2, b1, b2, t3, ?_, hf5, hle⟩
  · rw [hsrc5, hsrc4]
    exact hcps
  · rw [hdst5, hdst4]
    exact hcpd
  · rw [hcl5, hcl4, hcl3, hcl2, hcl1]
  · rw [hrc5, hrc4, hrc3, hrc2]
    rw [Option.isSome_iff_exists] at hrc1 ⊢
    exact hrc1
  · rw [hfa5]
    exact hfa4some
  · rw [← hrf]
    exact hra

/-- A concrete request with both optional accounts empty, source
`Desired 1000`, destination `Min 0`. -/
def actBig : PairSwapAction where
  source := { asset := 1, amount := Bounds.Desired 1000 }
  destination := { asset := 2, amount := Bounds.Min 0 }
  pool_account := 7
  client_account := none
  receiver_account := none
  fee_account := none
  get_fee_from_destination := some true
  fee := none

/-- The resolved form of `actBig` produced by a successful validation under
`envA` with caller 1. -/
def actBigRes : PairSwapAction :=
  { actBig with
    client_account := some 1
    receiver_account := some 1
    destination := { asset := 2, amount := Bounds.Calculated 501 }
    fee_account := some 57
    fee := some 3 }

/-- C1 witness: `envA` (whose pricing functions always return positive
amounts) validates `actBig` for caller 1, and the postconditions hold for
the returned action `actBigRes`. -/
theorem c1_concrete_postconditions_witness :
    concretePositive actBigRes.source.amount ∧
    concretePositive actBigRes.destination.amount ∧
    actBigRes.client_account = some 1 ∧
    actBigRes.receiver_account.isSome = true ∧
    actBigRes.fee_account.isSome = true ∧
    (∃ f rf a3 bst btt a4,
      resolve_amounts envA a3 bst btt = Except.ok (a4, some rf) ∧
      actBigRes.fee = some f ∧ rf ≤ f) :=
  c1_concrete_postconditions envA actBig actBigRes 1
    (by intro a b p g x y z v f h
        have h2 : z / 2 + 1 = v ∧ 3 = f := by simpa [envA] using h
        obtain ⟨hv, -⟩ := h2
        rw [← hv]
        exact Nat.succ_pos _)
    (by intro a b p g x y z v f h
        have h2 : z * 2 + 1 = v ∧ 4 = f := by simpa [envA] using h
        obtain ⟨hv, -⟩ := h2
        rw [← hv]
        exact Nat.succ_pos _)
    (by decide) (by decide)

/-- Arithmetic helper on `Nat` used by the transfer-executor proof. -/
theorem nat_sub_fee_not_lt (b fee ta : Nat) (h1 : fee ≤ ta) (h2 : ta ≤ b) :
    ¬ b - fee < ta - fee := by omega

/-- Arithmetic helper on `Nat` used by the transfer-executor proof. -/
theorem nat_sub_not_lt_of_le (b sa fee : Nat) (h : sa ≤ b) : ¬ b < sa - fee := by omega

/-- Arithmetic helper on `Nat` used by the transfer-executor proof. -/
theorem nat_sub_sub_not_lt (b sa fee : Nat) (h1 : fee ≤ sa) (h2 : sa ≤ b) :
    ¬ b - (sa - fee) < fee := by omega

/-- Arithmetic helper on `Nat` used by the transfer-executor proof. -/
theorem nat_sub_fee_collapse (b fee ta : Nat) (h1 : fee ≤ ta) :
    b - fee - (ta - fee) = b - ta := by omega

/-- Arithmetic helper on `Nat` used by the transfer-executor proof. -/
theorem nat_sub_split_collapse (b sa fee : Nat) (h1 : fee ≤ sa) :
    b - (sa - fee) - fee = b - sa := by omega

/-! Claim C2. -/

/-- C2: for a fully validated request (every optional field set, amounts
resolved, assets distinct, the involved accounts pairwise distinct and the
balances sufficient), `reserve` fails with
`SourceAndClientAccountDoNotMatchAsEqual` whenever the payer differs from
`client_account`, and otherwise performs exactly the three movements of
source lines 362-400 — fee-from-destination: `sa` of the source asset from
payer to pool, `fee` of the destination asset from pool to the fee account,
`ta − fee` of the destination asset from pool to the receiver;
fee-from-source: `sa − fee` from payer to pool, `fee` from payer to the fee
account, the full `ta` from pool to the receiver — and finally publishes the
pool's post-transfer balances of the two assets as the new reserves (lines
402-412). -/
theorem c2_reserve_movements
    (env : Env) (st : ChainState) (act : PairSwapAction)
    (payer pool_repr fee_repr receiver : AccountId) (fa : TechAccountId)
    (sa ta fee : Balance)
    (hcl : act.client_account = some payer)
    (hrc : act.receiver_account = some receiver)
    (hfa : act.fee_account = some fa)
    (hfee : act.fee = some fee)
    (hsa : act.source.amount.unwrap = sa)
    (hta : act.destination.amount.unwrap = ta)
    (htp : env.tech_account_id_to_account_id act.pool_account = Except.ok pool_repr)
    (htf : env.tech_account_id_to_account_id fa = Except.ok fee_repr)
    (hassets : act.source.asset ≠ act.destination.asset)
    (hd1 : payer ≠ pool_repr) (hd2 : payer ≠ fee_repr) (hd3 : payer ≠ receiver)
    (hd4 : pool_repr ≠ fee_repr) (hd5 : pool_repr ≠ receiver) (hd6 : fee_repr ≠ receiver) :
    (∀ p, some p ≠ act.client_account →
      reserve env st act p = Except.error Error.SourceAndClientAccountDoNotMatchAsEqual) ∧
    (act.get_fee_from_destination = some true → fee ≤ ta →
      sa ≤ st.balances act.source.asset payer →
      ta ≤ st.balances act.destination.asset pool_repr →
      ∃ st2, reserve env st act payer = Except.ok st2 ∧
        st2.balances act.source.asset payer = st.balances act.source.asset payer - sa ∧
        st2.balances act.source.asset pool_repr =
          st.balances act.source.asset pool_repr + sa ∧
        st2.balances act.destination.asset pool_repr =
          st.balances act.destination.asset pool_repr - ta ∧
        st2.balances act.destination.asset fee_repr =
          st.balances act.destination.asset fee_repr + fee ∧
        st2.balances act.destination.asset receiver =
          st.balances act.destination.asset receiver + (ta - fee) ∧
        st2.reserves act.source.asset act.destination.asset =
          (st.balances act.source.asset pool_repr + sa,
            st.balances act.destination.asset pool_repr - ta)) ∧
    (act.get_fee_from_destination = some false → fee ≤ sa →
      sa ≤ st.balances act.source.asset payer →
      ta ≤ st.balances act.destination.asset pool_repr →
      ∃ st2, reserve env st act payer = Except.ok st2 ∧
        st2.balances act.source.asset payer = st.balances act.source.asset payer - sa ∧
        st2.balances act.source.asset pool_repr =
          st.balances act.source.asset pool_repr + (sa - fee) ∧
        st2.balances act.source.asset fee_repr =
          st.balances act.source.asset fee_repr + fee ∧
        st2.balances act.destination.asset pool_repr =
          st.balances act.destination.asset pool_repr - ta ∧
        st2.balances act.destination.asset receiver =
          st.balances act.destination.asset receiver + ta ∧
        st2.reserves act.source.asset act.destination.asset =
          (st.balances act.source.asset pool_repr + (sa - fee),
            st.balances act.destination.asset pool_repr - ta)) := by
  refine ⟨?_, ?_, ?_⟩
  · intro p hp
    simp [reserve, hp, exc_bind_ok, exc_bind_error]
  · intro hgd hfle hsb htb
    have g1 : ¬ st.balances act.source.asset payer < sa := Nat.not_lt.mpr hsb
    have g2 : ¬ st.balances act.destination.asset pool_repr < fee :=
      Nat.not_lt.mpr (le_trans hfle htb)
    have g3 : ¬ st.balances act.destination.asset pool_repr - fee < ta - fee :=
      nat_sub_fee_not_lt _ _ _ hfle htb
    rcases hres : reserve env st act payer with e | st2
    · simp [reserve, transfer_in, transfer_out, transfer, update_reserves,
        hcl, hrc, hfa, hfee, hsa, hta, htp, htf, hgd,
        hassets, Ne.symm hassets, hd1, Ne.symm hd1, hd2, Ne.symm hd2,
        hd3, Ne.symm hd3, hd4, Ne.symm hd4, hd5, Ne.symm hd5, hd6, Ne.symm hd6,
        g1, g2, g3, exc_bind_ok, exc_bind_error] at hres
    · refine ⟨st2, rfl, ?_, ?_, ?_, ?_, ?_, ?_⟩ <;>
      · simp [reserve, transfer_in, transfer_out, transfer, update_reserves,
          hcl, hrc, hfa, hfee, hsa, hta, htp, htf, hgd,
          hassets, Ne.symm hassets, hd1, Ne.symm hd1, hd2, Ne.symm hd2,
          hd3, Ne.symm hd3, hd4, Ne.symm hd4, hd5, Ne.symm hd5, hd6, Ne.symm hd6,
          g1, g2, g3, exc_bind_ok, exc_bind_error] at hres
        rw [← hres]
        simp [hassets, Ne.symm hassets, hd1, Ne.symm hd1, hd2, Ne.symm hd2,
          hd3, Ne.symm hd3, hd4, Ne.symm hd4, hd5, Ne.symm hd5, hd6, Ne.symm hd6,
          nat_sub_fee_collapse _ _ _ hfle, nat_sub_split_collapse _ _ _ hfle]
  · intro hgd hfle hsb htb
    have g1 : ¬ st.balances act.source.asset payer < sa - fee :=
      nat_sub_not_lt_of_le _ _ _ hsb
    have g2 : ¬ st.balances act.source.asset payer - (sa - fee) < fee :=
      nat_sub_sub_not_lt _ _ _ hfle hsb
    have g3 : ¬ st.balances act.destination.asset pool_repr < ta := Nat.not_lt.mpr htb
    rcases hres : reserve env st act payer with e | st2
    · simp [reserve, transfer_in, transfer_out, transfer, update_reserves,
        hcl, hrc, hfa, hfee, hsa, hta, htp, htf, hgd,
        hassets, Ne.symm hassets, hd1, Ne.symm hd1, hd2, Ne.symm hd2,
        hd3, Ne.symm hd3, hd4, Ne.symm hd4, hd5, Ne.symm hd5, hd6, Ne.symm hd6,
        g1, g2, g3, exc_bind_ok, exc_bind_error] at hres
    · refine ⟨st2, rfl, ?_, ?_, ?_, ?_, ?_, ?_⟩ <;>
      · simp [reserve, transfer_in, transfer_out, transfer, update_reserves,
          hcl, hrc, hfa, hfee, hsa, hta, htp, htf, hgd,
          hassets, Ne.symm hassets, hd1, Ne.symm hd1, hd2, Ne.symm hd2,
          hd3, Ne.symm hd3, hd4, Ne.symm hd4, hd5, Ne.symm hd5, hd6, Ne.symm hd6,
          g1, g2, g3, exc_bind_ok, exc_bind_error] at hres
        rw [← hres]
        simp [hassets, Ne.symm hassets, hd1, Ne.symm hd1, hd2, Ne.symm hd2,
          hd3, Ne.symm hd3, hd4, Ne.symm hd4, hd5, Ne.symm hd5, hd6, Ne.symm hd6,
          nat_sub_fee_collapse _ _ _ hfle, nat_sub_split_collapse _ _ _ hfle]

/-- A chain state in which every account holds 1000 of every asset. -/
def stW : ChainState where
  balances := fun _ _ => 1000
  reserves := fun _ _ => (0, 0)

/-- A fully resolved action ready for the executor: amounts `Calculated
100`/`Calculated 50`, fee 5 from the destination, client 1, receiver 2, fee
account 3. -/
def actResolved : PairSwapAction where
  source := { asset := 1, amount := Bounds.Calculated 100 }
  destination := { asset := 2, amount := Bounds.Calculated 50 }
  pool_account := 7
  client_account := some 1
  receiver_account := some 2
  fee_account := some 3
  get_fee_from_destination := some true
  fee := some 5

/-- C2 witness: executing `actResolved` from payer 1 moves 100 of asset 1
into the pool (account 107), 5 of asset 2 to the fee account (103), 45 of
asset 2 to the receiver (2), and publishes the pool's post-transfer balances
as the reserves of the pair. -/
theorem c2_reserve_movements_witness :
    ∃ st2, reserve envA stW actResolved 1 = Except.ok st2 ∧
      st2.balances 1 1 = stW.balances 1 1 - 100 ∧
      st2.balances 1 107 = stW.balances 1 107 + 100 ∧
      st2.balances 2 107 = stW.balances 2 107 - 50 ∧
      st2.balances 2 103 = stW.balances 2 103 + 5 ∧
      st2.balances 2 2 = stW.balances 2 2 + (50 - 5) ∧
      st2.reserves 1 2 = (stW.balances 1 107 + 100, stW.balances 2 107 - 50) :=
  (c2_reserve_movements envA stW actResolved 1 107 103 2 3 100 50 5
    rfl rfl rfl rfl rfl rfl rfl rfl (by decide) (by decide) (by decide) (by decide)
    (by decide) (by decide) (by decide)).2.1 rfl (by decide) (by decide) (by decide)

end PoolXyk
